import Mathlib

/-!
# avioane_v2: the room registry and the per-connection message handler

A shallow embedding of `src/main.go` (the two-player grid battle server) and
theorems about it.

Modelling conventions.

* A Go `map[string]T` is an association list `GoMap T`; `mapGet`, `mapIndex`,
  `mapSet`, `mapDelete` and `mapLen` are the Go operations `v, ok := m[k]`,
  `m[k]`, `m[k] = v`, `delete(m, k)` and `len(m)`.  `for k, v := range m` visits
  the entries in list order, which is one of the orders Go may choose (it leaves
  the order unspecified).
* `*Room` pointers are addresses into `GameServer.heap`; the registry
  `GameServer.rooms` maps a room identifier to an address, and a connection's
  `currentRoom` is `Option Nat` (`none` is Go's `nil`).
* A `*websocket.Conn` is its identity, a natural number.  `WriteJSON` is
  recorded as an output `(recipient, message)`; write errors are logged or
  dropped by the source and are not modelled.
* Go `int` is a 64-bit two's complement integer: the one arithmetic operation on
  it, `HeadHits[..]++`, wraps through `wrapInt64`.
* A run-time panic (index out of range, nil dereference) makes a handler return
  `none`.
* Each handler runs atomically: the source holds the room's lock for the whole
  transition.
-/

set_option autoImplicit false
set_option maxRecDepth 8000

namespace Avioane

/-! ## Go maps with string keys -/

/-- A Go `map[string]α`, as an association list. -/
abbrev GoMap (α : Type) := List (String × α)

/-- The lookup `v, ok := m[k]`. -/
def mapGet {α : Type} : GoMap α → String → Option α
  | [], _ => none
  | (k1, v) :: rest, k => if k1 = k then some v else mapGet rest k

/-- The index expression `m[k]`, which yields the zero value when `k` is absent. -/
def mapIndex {α : Type} (zero : α) (m : GoMap α) (k : String) : α :=
  (mapGet m k).getD zero

/-- The assignment `m[k] = v`. -/
def mapSet {α : Type} : GoMap α → String → α → GoMap α
  | [], k, v => [(k, v)]
  | (k1, v1) :: rest, k, v =>
    if k1 = k then (k, v) :: rest else (k1, v1) :: mapSet rest k v

/-- The statement `delete(m, k)`. -/
def mapDelete {α : Type} : GoMap α → String → GoMap α
  | [], _ => []
  | (k1, v1) :: rest, k =>
    if k1 = k then mapDelete rest k else (k1, v1) :: mapDelete rest k

/-- The builtin `len(m)`. -/
def mapLen {α : Type} (m : GoMap α) : Nat := m.length

/-- The keys of a map, in iteration order. -/
def mapKeys {α : Type} (m : GoMap α) : List String := m.map Prod.fst

/-! ## Data model -/

/-- The identity of a `*websocket.Conn`. -/
abbrev Conn := Nat

/-- The struct `Room` (the mutex is not state). -/
structure Room where
  ID : String
  Players : GoMap Conn
  PlanesPlaced : GoMap Int
  PlayerGrids : GoMap (List Bool)
  PlaneHeads : GoMap (List Int)
  HeadHits : GoMap Int
  ReadyPlayers : GoMap Bool
  deriving DecidableEq, Repr

/-- The struct `GameServer`: the registry `rooms` holds pointers, modelled as
addresses into `heap`, the list of all `Room` objects allocated so far. -/
structure GameServer where
  heap : List Room
  rooms : GoMap Nat
  deriving DecidableEq, Repr

/-- The struct `Message`; every field defaults to its Go zero value.  `Data` is
the raw JSON text. -/
structure Message where
  Type_ : String := ""
  RoomID : String := ""
  PlayerID : String := ""
  Data : String := ""
  Position : Int := 0
  IsHit : Bool := false
  IsHeadHit : Bool := false
  HeadHits : Int := 0
  GameOver : Bool := false
  Winner : String := ""
  PlanesPlaced : Int := 0
  OpponentReady : Bool := false
  PlacementPhase : Bool := false
  MyTurn : Bool := false
  Positions : List Int := []
  deriving DecidableEq, Repr

/-- The local variables of one run of `handleWS`: the connection and the
resolved room and slot. -/
structure Session where
  conn : Conn
  currentRoom : Option Nat := none
  currentPlayerID : String := ""
  deriving DecidableEq, Repr

/-- One `WriteJSON` call: the connection written to and the message. -/
abbrev Out := Conn × Message

/-- Go `int` arithmetic: reduction of an integer to the 64-bit signed range. -/
def wrapInt64 (x : Int) : Int :=
  (x + 9223372036854775808) % 18446744073709551616 - 9223372036854775808

/-! ## The registry -/

/-- `NewGameServer`: an empty registry. -/
def NewGameServer : GameServer := { heap := [], rooms := [] }

/-- The `Room` literal allocated by `createRoom`: all six maps empty. -/
def emptyRoom (roomID : String) : Room :=
  { ID := roomID, Players := [], PlanesPlaced := [], PlayerGrids := [],
    PlaneHeads := [], HeadHits := [], ReadyPlayers := [] }

/-- The identifier `fmt.Sprintf("room_%d", n)`. -/
def roomName (n : Nat) : String := "room_" ++ toString n

/-- The number a list of decimal digit characters denotes: the reading back of
a `%d` rendering. -/
def digitsValue (l : List Char) : Nat :=
  l.foldl (fun acc c => 10 * acc + (c.toNat - 48)) 0

/-- `GameServer.createRoom`: names the room after the registry size plus one,
allocates it and registers it; returns the identifier and the new server. -/
def createRoom (gs : GameServer) : String × GameServer :=
  let roomID := roomName (mapLen gs.rooms + 1)
  (roomID, { heap := gs.heap ++ [emptyRoom roomID],
             rooms := mapSet gs.rooms roomID gs.heap.length })

/-- The server after `n` successive calls of `createRoom` on an empty registry,
with the identifiers the calls returned, in order. -/
def createRooms : Nat → GameServer × List String
  | 0 => (NewGameServer, [])
  | n + 1 =>
    ((createRoom (createRooms n).1).2, (createRooms n).2 ++ [(createRoom (createRooms n).1).1])

/-- `getOtherPlayerID`. -/
def getOtherPlayerID (playerID : String) : String :=
  if playerID = "1" then "2" else "1"

/-- Stores `room` at address `addr`. -/
def storeRoom (gs : GameServer) (addr : Nat) (room : Room) : GameServer :=
  { gs with heap := gs.heap.set addr room }

/-! ## The message switch of `handleWS` -/

/-- `make([]bool, 100)`. -/
def freshGrid : List Bool := List.replicate 100 false

/-- The four slot assignments of `create_room` and `join_room` for slot `pid`. -/
def populateSlot (room : Room) (pid : String) (conn : Conn) : Room :=
  { room with
    Players := mapSet room.Players pid conn
    PlanesPlaced := mapSet room.PlanesPlaced pid 0
    PlayerGrids := mapSet room.PlayerGrids pid freshGrid
    ReadyPlayers := mapSet room.ReadyPlayers pid false }

/-- Case `"create_room"`. -/
def handleCreateRoom (gs : GameServer) (s : Session) :
    Option (GameServer × Session × List Out) :=
  let (roomID, gs1) := createRoom gs
  match mapGet gs1.rooms roomID with
  | none => none
  | some addr =>
    match gs1.heap[addr]? with
    | none => none
    | some room =>
      some (storeRoom gs1 addr (populateSlot room "1" s.conn),
            { s with currentRoom := some addr, currentPlayerID := "1" },
            [(s.conn, { Type_ := "room_created", RoomID := roomID, PlayerID := "1",
                        PlacementPhase := true, PlanesPlaced := 0 })])

/-- The `game_start` broadcast of `join_room`, one message per entry of
`room.Players`. -/
def joinBroadcast (room : Room) : List Out :=
  room.Players.map fun e =>
    (e.2, { Type_ := "game_start", PlayerID := e.1, PlacementPhase := true,
            PlanesPlaced := mapIndex 0 room.PlanesPlaced e.1 })

/-- Case `"join_room"`. -/
def handleJoinRoom (gs : GameServer) (s : Session) (msg : Message) :
    Option (GameServer × Session × List Out) :=
  match mapGet gs.rooms msg.RoomID with
  | none => some (gs, s, [(s.conn, { Type_ := "error", Data := "\"Room not found\"" })])
  | some addr =>
    match gs.heap[addr]? with
    | none => none
    | some room =>
      if mapLen room.Players ≥ 2 then
        some (gs, s, [(s.conn, { Type_ := "error", Data := "\"Room is full\"" })])
      else
        let room1 := populateSlot room "2" s.conn
        some (storeRoom gs addr room1,
              { s with currentRoom := some addr, currentPlayerID := "2" },
              joinBroadcast room1)

/-- The grid update loop of `place_plane`: each position in `[0, 100)` is
written; a write at or beyond the length of the slice panics. -/
def updateGrid : List Bool → List Int → Option (List Bool)
  | grid, [] => some grid
  | grid, pos :: rest =>
    if 0 ≤ pos ∧ pos < 100 then
      if pos.toNat < grid.length then updateGrid (grid.set pos.toNat true) rest
      else none
    else updateGrid grid rest

/-- The state change of `place_plane` on the room, for the slot `pid`. -/
def placePlane (room : Room) (pid : String) (msg : Message) : Option Room :=
  let room1 := { room with PlanesPlaced := mapSet room.PlanesPlaced pid msg.PlanesPlaced }
  match msg.Positions with
  | [] => some room1
  | head :: _ =>
    let room2 := { room1 with
      PlaneHeads := mapSet room1.PlaneHeads pid (mapIndex [] room1.PlaneHeads pid ++ [head]) }
    match updateGrid (mapIndex [] room2.PlayerGrids pid) msg.Positions with
    | none => none
    | some grid =>
      match mapGet room2.PlayerGrids pid with
      | none => some room2
      | some _ => some { room2 with PlayerGrids := mapSet room2.PlayerGrids pid grid }

/-- The two notifications of `place_plane`: the confirmation to the requester,
then the notice to the other slot when it is populated. -/
def placePlaneOutputs (room : Room) (s : Session) (msg : Message) : List Out :=
  (s.conn, { Type_ := "placement_update", PlanesPlaced := msg.PlanesPlaced,
             PlacementPhase := true }) ::
  match mapGet room.Players (getOtherPlayerID s.currentPlayerID) with
  | some otherPlayer =>
    [(otherPlayer, { Type_ := "opponent_placement_update",
                     OpponentReady := decide (msg.PlanesPlaced ≥ 3),
                     PlacementPhase := true })]
  | none => []

/-- The state change of `remove_plane` on the room. -/
def removePlane (room : Room) (pid : String) (msg : Message) : Room :=
  { room with
    PlanesPlaced := mapSet room.PlanesPlaced pid msg.PlanesPlaced
    ReadyPlayers := mapSet room.ReadyPlayers pid false }

/-- The `placement_update` broadcast of `remove_plane`. -/
def removePlaneOutputs (room : Room) : List Out :=
  room.Players.map fun e =>
    (e.2, { Type_ := "placement_update", PlayerID := e.1,
            PlanesPlaced := mapIndex 0 room.PlanesPlaced e.1, PlacementPhase := true })

/-- The state change of `player_ready` on the room. -/
def playerReady (room : Room) (pid : String) : Room :=
  { room with ReadyPlayers := mapSet room.ReadyPlayers pid true }

/-- The messages of `player_ready`, on the room as already updated. -/
def playerReadyOutputs (room : Room) : List Out :=
  if mapIndex false room.ReadyPlayers "1" && mapIndex false room.ReadyPlayers "2" then
    room.Players.map fun e =>
      (e.2, { Type_ := "game_start", PlayerID := e.1, PlacementPhase := false,
              MyTurn := decide (e.1 = "1") })
  else []

/-- The head loop of `attack`: scans the opponent's heads; at the first one
equal to `pos` it reports a head hit, increments the attacker's counter and
stops. -/
def headLoop (pos : Int) (pid : String) : List Int → GoMap Int → Bool × GoMap Int
  | [], headHits => (false, headHits)
  | headPos :: rest, headHits =>
    if pos = headPos then
      (true, mapSet headHits pid (wrapInt64 (mapIndex 0 headHits pid + 1)))
    else headLoop pos pid rest headHits

/-- What `attack` computes before it writes: the updated room and the flags
`isHit` and `isHeadHit`. -/
def resolveAttack (room : Room) (pid : String) (pos : Int) : Room × Bool × Bool :=
  let otherPlayerID := getOtherPlayerID pid
  let opponentGrid := mapIndex [] room.PlayerGrids otherPlayerID
  if 0 ≤ pos ∧ pos < (opponentGrid.length : Int) then
    let isHit := opponentGrid.getD pos.toNat false
    let r := headLoop pos pid (mapIndex [] room.PlaneHeads otherPlayerID) room.HeadHits
    ({ room with HeadHits := r.2 }, isHit, r.1)
  else (room, false, false)

/-- The result payload of `attack`, under the given message type. -/
def attackMessage (type : String) (room : Room) (pid : String) (pos : Int)
    (isHit isHeadHit : Bool) : Message :=
  { Type_ := type, Position := pos, IsHit := isHit, IsHeadHit := isHeadHit,
    HeadHits := mapIndex 0 room.HeadHits pid,
    GameOver := decide (mapIndex 0 room.HeadHits pid ≥ 3),
    Winner := pid,
    MyTurn := !decide (mapIndex 0 room.HeadHits pid ≥ 3) }

/-- The room with the head-hit counter of slot `pid` set to `v`. -/
def withHeadHits (room : Room) (pid : String) (v : Int) : Room :=
  { room with HeadHits := mapSet room.HeadHits pid v }

/-- The two messages of `attack`, on the room as already updated. -/
def attackOutputs (room : Room) (s : Session) (pos : Int) (isHit isHeadHit : Bool) :
    List Out :=
  (s.conn, attackMessage "attack_result" room s.currentPlayerID pos isHit isHeadHit) ::
  match mapGet room.Players (getOtherPlayerID s.currentPlayerID) with
  | some opponent =>
    [(opponent, attackMessage "opponent_attack" room s.currentPlayerID pos isHit isHeadHit)]
  | none => []

/-- The cases that start with `if currentRoom == nil { continue }`: runs `f` on
the resolved room and stores the room it returns. -/
def onCurrentRoom (gs : GameServer) (s : Session)
    (f : Room → Option (Room × List Out)) : Option (GameServer × Session × List Out) :=
  match s.currentRoom with
  | none => some (gs, s, [])
  | some addr =>
    match gs.heap[addr]? with
    | none => none
    | some room =>
      match f room with
      | none => none
      | some (room1, outs) => some (storeRoom gs addr room1, s, outs)

/-- One iteration of the read loop of `handleWS`: the switch on `msg.Type`.
The result is the new server, the connection's new local variables and the
messages written; `none` is a panic. -/
def handleMessage (gs : GameServer) (s : Session) (msg : Message) :
    Option (GameServer × Session × List Out) :=
  if msg.Type_ = "create_room" then handleCreateRoom gs s
  else if msg.Type_ = "join_room" then handleJoinRoom gs s msg
  else if msg.Type_ = "place_plane" then
    onCurrentRoom gs s fun room =>
      (placePlane room s.currentPlayerID msg).map fun room1 =>
        (room1, placePlaneOutputs room1 s msg)
  else if msg.Type_ = "remove_plane" then
    onCurrentRoom gs s fun room =>
      let room1 := removePlane room s.currentPlayerID msg
      some (room1, removePlaneOutputs room1)
  else if msg.Type_ = "player_ready" then
    onCurrentRoom gs s fun room =>
      let room1 := playerReady room s.currentPlayerID
      some (room1, playerReadyOutputs room1)
  else if msg.Type_ = "attack" then
    onCurrentRoom gs s fun room =>
      let r := resolveAttack room s.currentPlayerID msg.Position
      some (r.1, attackOutputs r.1 s msg.Position r.2.1 r.2.2)
  else some (gs, s, [])

/-- The state change of the cleanup on disconnect, for the slot `pid`. -/
def removeSlot (room : Room) (pid : String) : Room :=
  { room with
    Players := mapDelete room.Players pid
    PlanesPlaced := mapDelete room.PlanesPlaced pid
    PlayerGrids := mapDelete room.PlayerGrids pid
    ReadyPlayers := mapDelete room.ReadyPlayers pid }

/-- The cleanup that follows the read loop of `handleWS`. -/
def handleDisconnect (gs : GameServer) (s : Session) : Option (GameServer × List Out) :=
  match s.currentRoom with
  | none => some (gs, [])
  | some addr =>
    if s.currentPlayerID = "" then some (gs, [])
    else
      match gs.heap[addr]? with
      | none => none
      | some room =>
        let room1 := removeSlot room s.currentPlayerID
        some (storeRoom gs addr room1,
              match mapGet room1.Players (getOtherPlayerID s.currentPlayerID) with
              | some otherPlayer => [(otherPlayer, { Type_ := "opponent_disconnected" })]
              | none => [])

/-- The read loop of `handleWS` over the messages one connection delivers
before its read fails. -/
def readLoop (gs : GameServer) (s : Session) :
    List Message → Option (GameServer × Session × List Out)
  | [] => some (gs, s, [])
  | msg :: rest =>
    match handleMessage gs s msg with
    | none => none
    | some (gs1, s1, outs) =>
      match readLoop gs1 s1 rest with
      | none => none
      | some (gs2, s2, outs2) => some (gs2, s2, outs ++ outs2)

/-- `handleWS` for a connection that runs alone: the read loop from unset local
variables, then the cleanup. -/
def handleWS (gs : GameServer) (conn : Conn) (msgs : List Message) :
    Option (GameServer × List Out) :=
  match readLoop gs { conn := conn } msgs with
  | none => none
  | some (gs1, s1, outs) =>
    match handleDisconnect gs1 s1 with
    | none => none
    | some (gs2, outs2) => some (gs2, outs ++ outs2)

/-! ## The server as a whole: many connections

Every connection runs `handleWS` in its own goroutine; the handlers take the
room's lock, so a run of the server is a sequence of events, each one a whole
handler.  A handler that panics (only `place_plane` can, on a missing grid)
ends its goroutine without the cleanup and without releasing the room's lock:
every later handler on that room blocks for ever, which the model renders as
the event not being enabled. -/

/-- The slice as the grid loop of `place_plane` leaves it, whether the loop runs
to its end or panics at a write. -/
def updateGridWritten : List Bool → List Int → List Bool
  | grid, [] => grid
  | grid, pos :: rest =>
    if 0 ≤ pos ∧ pos < 100 then
      if pos.toNat < grid.length then updateGridWritten (grid.set pos.toNat true) rest
      else grid
    else updateGridWritten grid rest

/-- The room as `place_plane` leaves it, whether the handler runs to its end or
panics in the grid loop. -/
def placePlaneWritten (room : Room) (pid : String) (msg : Message) : Room :=
  let room1 := { room with PlanesPlaced := mapSet room.PlanesPlaced pid msg.PlanesPlaced }
  match msg.Positions with
  | [] => room1
  | head :: _ =>
    let room2 := { room1 with
      PlaneHeads := mapSet room1.PlaneHeads pid (mapIndex [] room1.PlaneHeads pid ++ [head]) }
    match mapGet room2.PlayerGrids pid with
    | none => room2
    | some grid =>
      { room2 with
        PlayerGrids := mapSet room2.PlayerGrids pid (updateGridWritten grid msg.Positions) }

/-- The server as a handler that panics leaves it: `place_plane` has written
the room up to the panic; no other case writes before it can panic. -/
def serverAtPanic (gs : GameServer) (s : Session) (msg : Message) : GameServer :=
  match s.currentRoom with
  | none => gs
  | some addr =>
    match gs.heap[addr]? with
    | none => gs
    | some room =>
      if msg.Type_ = "place_plane" then
        storeRoom gs addr (placePlaneWritten room s.currentPlayerID msg)
      else gs

/-- What drives the server: a new connection enters `handleWS`, a connection's
`ReadJSON` yields a message, or a connection's `ReadJSON` fails. -/
inductive Event where
  | connect
  | message (conn : Conn) (msg : Message)
  | disconnect (conn : Conn)
  deriving DecidableEq, Repr

/-- The state of the whole server: the registry and rooms, the local variables
of every connection inside its read loop, the identity the next connection
gets, and the rooms whose lock a panicked handler still holds. -/
structure System where
  server : GameServer
  sessions : List Session
  nextConn : Conn
  held : List Nat
  deriving DecidableEq, Repr

/-- The server at start: `NewGameServer`, no connection. -/
def initialSystem : System :=
  { server := NewGameServer, sessions := [], nextConn := 1, held := [] }

/-- The local variables of the live connection `conn`. -/
def findSession (sessions : List Session) (conn : Conn) : Option Session :=
  sessions.find? fun s => decide (s.conn = conn)

/-- Replaces the local variables of the connection `s1.conn`. -/
def putSession (sessions : List Session) (s1 : Session) : List Session :=
  sessions.map fun s => if s.conn = s1.conn then s1 else s

/-- Removes the connection `conn` from the live connections. -/
def dropSession (sessions : List Session) (conn : Conn) : List Session :=
  sessions.filter fun s => decide (s.conn ≠ conn)

/-- The room whose lock the handler of `msg` takes, if any (`create_room` locks
the room it has just allocated, which nobody else holds). -/
def lockTarget (gs : GameServer) (s : Session) (msg : Message) : Option Nat :=
  if msg.Type_ = "create_room" then none
  else if msg.Type_ = "join_room" then mapGet gs.rooms msg.RoomID
  else if msg.Type_ = "place_plane" ∨ msg.Type_ = "remove_plane" ∨
      msg.Type_ = "player_ready" ∨ msg.Type_ = "attack" then s.currentRoom
  else none

/-- The room whose lock the cleanup on disconnect takes, if any. -/
def cleanupTarget (s : Session) : Option Nat :=
  if s.currentPlayerID = "" then none else s.currentRoom

/-- Whether the lock of the target room can be taken. -/
def lockFree (held : List Nat) : Option Nat → Bool
  | none => true
  | some addr => decide (addr ∉ held)

/-- One event.  `none`: the event is not enabled (no such live connection, or
its handler blocks for ever on a lock that is never released). -/
def step (sys : System) : Event → Option System
  | Event.connect =>
    some { sys with sessions := sys.sessions ++ [{ conn := sys.nextConn }],
                    nextConn := sys.nextConn + 1 }
  | Event.message conn msg =>
    match findSession sys.sessions conn with
    | none => none
    | some s =>
      if lockFree sys.held (lockTarget sys.server s msg) then
        match handleMessage sys.server s msg with
        | some (gs1, s1, _) =>
          some { sys with server := gs1, sessions := putSession sys.sessions s1 }
        | none =>
          some { sys with server := serverAtPanic sys.server s msg,
                          sessions := dropSession sys.sessions conn,
                          held := (lockTarget sys.server s msg).toList ++ sys.held }
      else none
  | Event.disconnect conn =>
    match findSession sys.sessions conn with
    | none => none
    | some s =>
      if lockFree sys.held (cleanupTarget s) then
        match handleDisconnect sys.server s with
        | some (gs1, _) =>
          some { sys with server := gs1, sessions := dropSession sys.sessions conn }
        | none => some { sys with sessions := dropSession sys.sessions conn }
      else none

/-- A sequence of events, from `sys`. -/
def run (sys : System) : List Event → Option System
  | [] => some sys
  | ev :: rest =>
    match step sys ev with
    | none => none
    | some sys1 => run sys1 rest

/-! ## Predicates and example states used by the theorems -/

/-- The map has no key twice and all its keys are slot ids, "1" or "2". -/
def KeysOK {α : Type} (m : GoMap α) : Prop :=
  (mapKeys m).Nodup ∧ ∀ k ∈ mapKeys m, k = "1" ∨ k = "2"

/-- The room's six maps have slot ids as keys, none twice, and every grid has
length 100. -/
structure RoomOK (room : Room) : Prop where
  players : KeysOK room.Players
  planesPlaced : KeysOK room.PlanesPlaced
  playerGrids : KeysOK room.PlayerGrids
  planeHeads : KeysOK room.PlaneHeads
  headHits : KeysOK room.HeadHits
  readyPlayers : KeysOK room.ReadyPlayers
  gridLength : ∀ e ∈ room.PlayerGrids, e.2.length = 100

/-- A connection with a resolved room has the slot id "1" or "2". -/
def SessionOK (s : Session) : Prop :=
  s.currentRoom ≠ none → s.currentPlayerID = "1" ∨ s.currentPlayerID = "2"

/-- Every room allocated so far and every live connection is well formed. -/
def SystemOK (sys : System) : Prop :=
  (∀ room ∈ sys.server.heap, RoomOK room) ∧ ∀ s ∈ sys.sessions, SessionOK s

/-- Slot `pid` of `room` is in its initial state: it holds a grid of exactly 100
cells, all `false`, a planes-placed count of 0 and a ready flag `false`. -/
def SlotFresh (room : Room) (pid : String) : Prop :=
  (∃ grid, mapGet room.PlayerGrids pid = some grid ∧ grid.length = 100 ∧
    ∀ b ∈ grid, b = false) ∧
  mapGet room.PlanesPlaced pid = some 0 ∧
  mapGet room.ReadyPlayers pid = some false

/-- The room `room_1` once connection 1 has created it. -/
def onePlayerRoom : Room :=
  { ID := "room_1", Players := [("1", 1)], PlanesPlaced := [("1", 0)],
    PlayerGrids := [("1", freshGrid)], PlaneHeads := [], HeadHits := [],
    ReadyPlayers := [("1", false)] }

/-- The server whose only room is `onePlayerRoom`. -/
def onePlayerServer : GameServer := { heap := [onePlayerRoom], rooms := [("room_1", 0)] }

/-- The local variables of connection 1 once it has created `room_1`. -/
def sessionOne : Session := { conn := 1, currentRoom := some 0, currentPlayerID := "1" }

/-- The local variables of connection 2 once it has joined `room_1`. -/
def sessionTwo : Session := { conn := 2, currentRoom := some 0, currentPlayerID := "2" }

/-- The room `room_1` once connection 1 has created it and connection 2 has
joined it. -/
def twoPlayerRoom : Room :=
  { ID := "room_1", Players := [("1", 1), ("2", 2)],
    PlanesPlaced := [("1", 0), ("2", 0)],
    PlayerGrids := [("1", freshGrid), ("2", freshGrid)],
    PlaneHeads := [], HeadHits := [],
    ReadyPlayers := [("1", false), ("2", false)] }

/-- The server whose only room is `twoPlayerRoom`. -/
def twoPlayerServer : GameServer := { heap := [twoPlayerRoom], rooms := [("room_1", 0)] }

/-- The room `room_1` with both slots populated and slot "1" ready. -/
def oneReadyRoom : Room := { twoPlayerRoom with ReadyPlayers := [("1", true), ("2", false)] }

/-- The server whose only room is `oneReadyRoom`. -/
def oneReadyServer : GameServer := { heap := [oneReadyRoom], rooms := [("room_1", 0)] }

/-- A grid of 100 cells in which exactly the listed cells are `true`. -/
def gridOf (cells : List Nat) : List Bool :=
  (List.range 100).map fun i => decide (i ∈ cells)

/-- The room `room_1` in battle: each slot has placed three planes, with heads
0, 10 and 20, and both slots are ready. -/
def battleRoom : Room :=
  { ID := "room_1", Players := [("1", 1), ("2", 2)],
    PlanesPlaced := [("1", 3), ("2", 3)],
    PlayerGrids := [("1", gridOf [0, 1, 2, 10, 11, 12, 20, 21, 22]),
                    ("2", gridOf [0, 1, 2, 10, 11, 12, 20, 21, 22])],
    PlaneHeads := [("1", [0, 10, 20]), ("2", [0, 10, 20])],
    HeadHits := [],
    ReadyPlayers := [("1", true), ("2", true)] }

/-- The server whose only room is `battleRoom`. -/
def battleServer : GameServer := { heap := [battleRoom], rooms := [("room_1", 0)] }

/-- The three placements and the readiness message each slot sends in the
specification's scenario. -/
def placementMessages : List Message :=
  [{ Type_ := "place_plane", PlanesPlaced := 1, Positions := [0, 1, 2] },
   { Type_ := "place_plane", PlanesPlaced := 2, Positions := [10, 11, 12] },
   { Type_ := "place_plane", PlanesPlaced := 3, Positions := [20, 21, 22] },
   { Type_ := "player_ready" }]

/-- Both slots populated; slot "2" has sent one `place_plane` whose positions,
150 to 152, all lie off the board. -/
def strayHeadRoom : Room :=
  { twoPlayerRoom with PlanesPlaced := [("1", 0), ("2", 1)], PlaneHeads := [("2", [150])] }

/-- The server whose only room is `strayHeadRoom`. -/
def strayHeadServer : GameServer := { heap := [strayHeadRoom], rooms := [("room_1", 0)] }

/-- Both slots populated; slot "2" has sent one `place_plane` with positions
100, 101 and 102, one past the last cell of the board. -/
def edgeHeadRoom : Room :=
  { twoPlayerRoom with PlanesPlaced := [("1", 0), ("2", 1)], PlaneHeads := [("2", [100])] }

/-- The server whose only room is `edgeHeadRoom`. -/
def edgeHeadServer : GameServer := { heap := [edgeHeadRoom], rooms := [("room_1", 0)] }

/-- The battle room once slot "1" has struck a head of slot "2" three times. -/
def gameOverRoom : Room := { battleRoom with HeadHits := [("1", 3)] }

/-- The server whose only room is `gameOverRoom`. -/
def gameOverServer : GameServer := { heap := [gameOverRoom], rooms := [("room_1", 0)] }

/-- The local variables of a third connection once it has joined `room_1`. -/
def sessionThree : Session := { conn := 3, currentRoom := some 0, currentPlayerID := "2" }

/-- The battle room once slot "2" has struck a head of slot "1" twice. -/
def twoHitsRoom : Room := { battleRoom with HeadHits := [("2", 2)] }

/-- The server whose only room is `twoHitsRoom`. -/
def twoHitsServer : GameServer := { heap := [twoHitsRoom], rooms := [("room_1", 0)] }

/-- The room `twoHitsRoom` once the connection in slot "2" has disconnected. -/
def leftRoom : Room :=
  { ID := "room_1", Players := [("1", 1)], PlanesPlaced := [("1", 3)],
    PlayerGrids := [("1", gridOf [0, 1, 2, 10, 11, 12, 20, 21, 22])],
    PlaneHeads := [("1", [0, 10, 20]), ("2", [0, 10, 20])],
    HeadHits := [("2", 2)],
    ReadyPlayers := [("1", true)] }

/-- The server whose only room is `leftRoom`. -/
def leftServer : GameServer := { heap := [leftRoom], rooms := [("room_1", 0)] }

/-- The room `leftRoom` once connection 3 has joined it. -/
def rejoinedRoom : Room :=
  { ID := "room_1", Players := [("1", 1), ("2", 3)], PlanesPlaced := [("1", 3), ("2", 0)],
    PlayerGrids := [("1", gridOf [0, 1, 2, 10, 11, 12, 20, 21, 22]), ("2", freshGrid)],
    PlaneHeads := [("1", [0, 10, 20]), ("2", [0, 10, 20])],
    HeadHits := [("2", 2)],
    ReadyPlayers := [("1", true), ("2", false)] }

/-- The server whose only room is `rejoinedRoom`. -/
def rejoinedServer : GameServer := { heap := [rejoinedRoom], rooms := [("room_1", 0)] }

/-- The events of the specification's scenario up to the battle: connection 1
creates `room_1`, connection 2 joins it, and each sends its three placements
and its readiness message. -/
def battleEvents : List Event :=
  [Event.connect, Event.message 1 { Type_ := "create_room" },
   Event.connect, Event.message 2 { Type_ := "join_room", RoomID := "room_1" }] ++
  placementMessages.map (Event.message 1) ++ placementMessages.map (Event.message 2)

/-- The system in which `room_1` is in battle and connections 1 and 2 are live. -/
def battleSystem : System :=
  { server := battleServer, sessions := [sessionOne, sessionTwo], nextConn := 3, held := [] }

/-- Connection 1 creates `room_1`, connection 2 joins it, connection 1
disconnects, connection 3 joins `room_1` and disconnects in turn. -/
def takeoverEvents : List Event :=
  [Event.connect, Event.message 1 { Type_ := "create_room" },
   Event.connect, Event.message 2 { Type_ := "join_room", RoomID := "room_1" },
   Event.disconnect 1,
   Event.connect, Event.message 3 { Type_ := "join_room", RoomID := "room_1" },
   Event.disconnect 3]

/-- The server after `takeoverEvents`: `room_1` is registered and all its maps
are empty. -/
def vacatedServer : GameServer := { heap := [emptyRoom "room_1"], rooms := [("room_1", 0)] }

/-- Connection 1 creates `room_1`, connection 2 joins it, places a plane at
cells 12, 13, 14 and declares itself ready, and connection 1 disconnects. -/
def creatorLeavesEvents : List Event :=
  [Event.connect, Event.message 1 { Type_ := "create_room" },
   Event.connect, Event.message 2 { Type_ := "join_room", RoomID := "room_1" },
   Event.message 2 { Type_ := "place_plane", PlanesPlaced := 1, Positions := [12, 13, 14] },
   Event.message 2 { Type_ := "player_ready" },
   Event.disconnect 1]

/-- The room `room_1` after `creatorLeavesEvents`: only slot "2" is populated. -/
def joinerOnlyRoom : Room :=
  { ID := "room_1", Players := [("2", 2)], PlanesPlaced := [("2", 1)],
    PlayerGrids := [("2", gridOf [12, 13, 14])], PlaneHeads := [("2", [12])],
    HeadHits := [], ReadyPlayers := [("2", true)] }

/-- The server whose only room is `joinerOnlyRoom`. -/
def joinerOnlyServer : GameServer := { heap := [joinerOnlyRoom], rooms := [("room_1", 0)] }

/-! ## Lemmas on Go maps -/

theorem mapGet_eq_none_iff {α : Type} (m : GoMap α) (k : String) :
    mapGet m k = none ↔ k ∉ mapKeys m := by
  induction m with
  | nil => simp [mapGet, mapKeys]
  | cons e rest ih =>
    obtain ⟨k1, v1⟩ := e
    by_cases h : k1 = k
    · simp [mapGet, mapKeys, h]
    · have h2 : ¬ k = k1 := fun h3 => h h3.symm
      simpa [mapGet, mapKeys, h, h2] using ih

theorem mapGet_mapSet_self {α : Type} (m : GoMap α) (k : String) (v : α) :
    mapGet (mapSet m k v) k = some v := by
  induction m with
  | nil => simp [mapGet, mapSet]
  | cons e rest ih =>
    obtain ⟨k1, v1⟩ := e
    by_cases h : k1 = k
    · simp [mapGet, mapSet, h]
    · simp [mapGet, mapSet, h, ih]

theorem mapGet_mapSet_ne {α : Type} (m : GoMap α) (k k2 : String) (v : α) (hne : k2 ≠ k) :
    mapGet (mapSet m k v) k2 = mapGet m k2 := by
  induction m with
  | nil =>
    have h2 : ¬ k = k2 := fun h3 => hne h3.symm
    simp [mapGet, mapSet, h2]
  | cons e rest ih =>
    obtain ⟨k1, v1⟩ := e
    by_cases h : k1 = k
    · have h2 : ¬ k = k2 := fun h3 => hne h3.symm
      have h4 : ¬ k1 = k2 := fun h3 => h2 (h ▸ h3)
      simp [mapGet, mapSet, h, h2]
    · by_cases h5 : k1 = k2
      · subst h5
        simp [mapGet, mapSet, h]
      · simp [mapGet, mapSet, h, h5, ih]

theorem mapSet_of_absent {α : Type} (m : GoMap α) (k : String) (v : α)
    (h : mapGet m k = none) : mapSet m k v = m ++ [(k, v)] := by
  induction m with
  | nil => simp [mapSet]
  | cons e rest ih =>
    obtain ⟨k1, v1⟩ := e
    by_cases h1 : k1 = k
    · simp [mapGet, h1] at h
    · simp only [mapGet, h1, if_false] at h
      simp [mapSet, h1, ih h]

theorem mapLen_mapSet_of_present {α : Type} (m : GoMap α) (k : String) (v : α)
    (h : mapGet m k ≠ none) : mapLen (mapSet m k v) = mapLen m := by
  induction m with
  | nil => simp [mapGet] at h
  | cons e rest ih =>
    obtain ⟨k1, v1⟩ := e
    by_cases h1 : k1 = k
    · simp [mapSet, mapLen, h1]
    · simp only [mapGet, h1, if_false] at h
      have := ih h
      simp only [mapLen] at this
      simp [mapSet, mapLen, h1, this]

theorem mapGet_mapDelete_self {α : Type} (m : GoMap α) (k : String) :
    mapGet (mapDelete m k) k = none := by
  induction m with
  | nil => simp [mapGet, mapDelete]
  | cons e rest ih =>
    obtain ⟨k1, v1⟩ := e
    by_cases h : k1 = k
    · simp [mapDelete, h, ih]
    · simp [mapGet, mapDelete, h, ih]

theorem mapGet_mapDelete_ne {α : Type} (m : GoMap α) (k k2 : String) (hne : k2 ≠ k) :
    mapGet (mapDelete m k) k2 = mapGet m k2 := by
  induction m with
  | nil => simp [mapGet, mapDelete]
  | cons e rest ih =>
    obtain ⟨k1, v1⟩ := e
    by_cases h : k1 = k
    · subst h
      have h4 : ¬ k1 = k2 := fun h3 => hne h3.symm
      simp [mapGet, mapDelete, h4, ih]
    · by_cases h5 : k1 = k2
      · subst h5
        simp [mapGet, mapDelete, h]
      · simp [mapGet, mapDelete, h, h5, ih]

/-! ## Room identifiers -/

theorem digitChar_value : ∀ d, d < 10 → (Nat.digitChar d).toNat - 48 = d := by decide

theorem toDigitsCore_append (fuel : Nat) : ∀ (n : Nat) (ds : List Char),
    Nat.toDigitsCore 10 fuel n ds = Nat.toDigitsCore 10 fuel n [] ++ ds := by
  induction fuel with
  | zero => intro n ds; simp [Nat.toDigitsCore]
  | succ f ih =>
    intro n ds
    simp only [Nat.toDigitsCore]
    split
    · simp
    · rw [ih (n / 10) (Nat.digitChar (n % 10) :: ds), ih (n / 10) [Nat.digitChar (n % 10)]]
      simp

theorem digitsValue_toDigitsCore (fuel : Nat) : ∀ n : Nat, n < fuel →
    digitsValue (Nat.toDigitsCore 10 fuel n []) = n := by
  induction fuel with
  | zero => intro n h; omega
  | succ f ih =>
    intro n h
    simp only [Nat.toDigitsCore]
    split
    · rename_i h0
      have hlt : n < 10 := by omega
      simp only [digitsValue, List.foldl]
      rw [Nat.mod_eq_of_lt hlt, digitChar_value n hlt]
      omega
    · rename_i h0
      rw [toDigitsCore_append]
      have hq : n / 10 < f := by omega
      have := ih (n / 10) hq
      simp only [digitsValue] at this
      simp only [digitsValue, List.foldl_append, List.foldl, this]
      rw [digitChar_value (n % 10) (Nat.mod_lt _ (by decide))]
      omega

theorem toString_nat_injective (n m : Nat) (h : toString n = toString m) : n = m := by
  have h1 : Nat.toDigits 10 n = Nat.toDigits 10 m := congrArg String.data h
  have h2 := congrArg digitsValue h1
  simp only [Nat.toDigits] at h2
  rwa [digitsValue_toDigitsCore _ n (Nat.lt_succ_self n),
    digitsValue_toDigitsCore _ m (Nat.lt_succ_self m)] at h2

theorem roomName_injective (n m : Nat) (h : roomName n = roomName m) : n = m := by
  apply toString_nat_injective
  have := congrArg String.data h
  simp only [roomName, String.data_append, List.append_cancel_left_eq] at this
  exact String.ext this

/-- The registry after `n` calls of `createRoom` holds exactly the keys `room_1`,
..., `room_n`, and these are the identifiers returned. -/
theorem createRooms_keys (n : Nat) :
    mapKeys (createRooms n).1.rooms = (List.range n).map (fun i => roomName (i + 1)) ∧
    (createRooms n).2 = (List.range n).map (fun i => roomName (i + 1)) := by
  induction n with
  | zero => simp [createRooms, NewGameServer, mapKeys]
  | succ n ih =>
    obtain ⟨ih1, ih2⟩ := ih
    have hlen : mapLen (createRooms n).1.rooms = n := by
      have := congrArg List.length ih1
      simpa [mapKeys, mapLen] using this
    have habs : mapGet (createRooms n).1.rooms (roomName (n + 1)) = none := by
      rw [mapGet_eq_none_iff, ih1]
      intro hmem
      simp only [List.mem_map, List.mem_range] at hmem
      obtain ⟨i, hi, heq⟩ := hmem
      have := roomName_injective _ _ heq
      omega
    constructor
    · simp only [createRooms, createRoom, hlen]
      rw [mapSet_of_absent _ _ _ habs]
      simp [mapKeys, List.range_succ] at ih1 ⊢
      exact ih1
    · simp only [createRooms, createRoom, hlen, ih2]
      simp [List.range_succ]

theorem mapGet_mem {α : Type} (m : GoMap α) (k : String) (v : α)
    (h : mapGet m k = some v) : (k, v) ∈ m := by
  induction m with
  | nil => simp [mapGet] at h
  | cons e rest ih =>
    obtain ⟨k1, v1⟩ := e
    by_cases h1 : k1 = k
    · simp [mapGet, h1] at h
      simp [h1, h]
    · simp only [mapGet, h1, if_false] at h
      exact List.mem_cons_of_mem _ (ih h)

theorem createRooms_len (n : Nat) : mapLen (createRooms n).1.rooms = n := by
  have := congrArg List.length (createRooms_keys n).1
  simpa [mapKeys, mapLen] using this

theorem createRooms_absent (n : Nat) :
    mapGet (createRooms n).1.rooms (roomName (n + 1)) = none := by
  rw [mapGet_eq_none_iff, (createRooms_keys n).1]
  intro hmem
  simp only [List.mem_map, List.mem_range] at hmem
  obtain ⟨i, hi, heq⟩ := hmem
  have := roomName_injective _ _ heq
  omega

/-! ## The registry: `createRoom` -/

/-- C1: on a registry that starts empty, the call of `createRoom` that follows
`n` earlier calls returns `room_(n+1)`, that key is not registered before the
call, the registry size grows by exactly one (from `n` to `n + 1`), and the
identifiers returned by any number of calls are pairwise distinct. -/
theorem createRoom_identifiers_distinct (n : Nat) :
    (createRoom (createRooms n).1).1 = "room_" ++ toString (n + 1) ∧
    mapGet (createRooms n).1.rooms (createRoom (createRooms n).1).1 = none ∧
    mapLen (createRooms n).1.rooms = n ∧
    mapLen (createRoom (createRooms n).1).2.rooms = mapLen (createRooms n).1.rooms + 1 ∧
    (createRooms n).2.length = n ∧
    (∀ k, k < n → (createRooms n).2[k]? = some ("room_" ++ toString (k + 1))) ∧
    (createRooms n).2.Nodup := by
  have hlen := createRooms_len n
  have habs := createRooms_absent n
  have hids := (createRooms_keys n).2
  refine ⟨?_, ?_, hlen, ?_, ?_, ?_, ?_⟩
  · simp [createRoom, hlen, roomName]
  · simpa [createRoom, hlen] using habs
  · simp only [createRoom, hlen]
    rw [mapSet_of_absent _ _ _ habs]
    have hl : (createRooms n).1.rooms.length = n := hlen
    simp [mapLen, hl]
  · simp [hids]
  · intro k hk
    rw [hids, List.getElem?_map, List.getElem?_range hk]
    rfl
  · rw [hids]
    apply List.Nodup.map _ (List.nodup_range n)
    intro i j hij
    have := roomName_injective _ _ hij
    omega

/-- Three calls on an empty registry, evaluated. -/
theorem createRooms_example :
    (createRooms 3).2 = ["room_1", "room_2", "room_3"] ∧
    (createRooms 3).1.rooms = [("room_1", 0), ("room_2", 1), ("room_3", 2)] := by
  decide

/-! ## `join_room`: the two refusals -/

/-- C2: when `roomId` is not a key of the registry, `join_room` writes exactly
one message, the `error` "Room not found", to the requester, and returns the
server (registry and every room) and the connection's resolved room and slot
unchanged. -/
theorem join_room_unknown_id (gs : GameServer) (s : Session) (msg : Message)
    (hType : msg.Type_ = "join_room") (hUnknown : msg.RoomID ∉ mapKeys gs.rooms) :
    handleMessage gs s msg =
      some (gs, s, [(s.conn, { Type_ := "error", Data := "\"Room not found\"" })]) := by
  have hnone := (mapGet_eq_none_iff gs.rooms msg.RoomID).mpr hUnknown
  simp [handleMessage, hType, handleJoinRoom, hnone]

theorem join_room_unknown_id_witness :
    handleMessage NewGameServer { conn := 7 } { Type_ := "join_room", RoomID := "room_9" } =
      some (NewGameServer, { conn := 7 },
        [(7, { Type_ := "error", Data := "\"Room not found\"" })]) :=
  join_room_unknown_id NewGameServer { conn := 7 } { Type_ := "join_room", RoomID := "room_9" }
    rfl (by decide)

/-- C3: when the room named by `roomId` already holds 2 populated slots,
`join_room` writes exactly one message, the `error` "Room is full", to the
requester, and returns the server (so every map of the room) and the
connection's resolved room and slot unchanged. -/
theorem join_room_full (gs : GameServer) (s : Session) (msg : Message) (addr : Nat)
    (room : Room) (hType : msg.Type_ = "join_room")
    (hReg : mapGet gs.rooms msg.RoomID = some addr) (hRoom : gs.heap[addr]? = some room)
    (hFull : mapLen room.Players = 2) :
    handleMessage gs s msg =
      some (gs, s, [(s.conn, { Type_ := "error", Data := "\"Room is full\"" })]) := by
  simp [handleMessage, hType, handleJoinRoom, hReg, hRoom, hFull]

theorem join_room_full_witness :
    handleMessage twoPlayerServer { conn := 3 } { Type_ := "join_room", RoomID := "room_1" } =
      some (twoPlayerServer, { conn := 3 },
        [(3, { Type_ := "error", Data := "\"Room is full\"" })]) :=
  join_room_full twoPlayerServer { conn := 3 } { Type_ := "join_room", RoomID := "room_1" } 0
    twoPlayerRoom rfl rfl rfl rfl

/-- The example server is what `create_room` from connection 1 followed by
`join_room` from connection 2 produces on an empty registry. -/
theorem twoPlayerServer_reached :
    (handleMessage NewGameServer { conn := 1 } { Type_ := "create_room" }).bind
      (fun r => handleMessage r.1 { conn := 2 } { Type_ := "join_room", RoomID := "room_1" }) =
    some (twoPlayerServer, { conn := 2, currentRoom := some 0, currentPlayerID := "2" },
      [(1, { Type_ := "game_start", PlayerID := "1", PlacementPhase := true }),
       (2, { Type_ := "game_start", PlayerID := "2", PlacementPhase := true })]) := by
  decide

/-! ## Slot initialisation -/

theorem storeRoom_heap_self (gs : GameServer) (addr : Nat) (room r : Room)
    (h : gs.heap[addr]? = some room) : (storeRoom gs addr r).heap[addr]? = some r := by
  obtain ⟨hlt, -⟩ := List.getElem?_eq_some.mp h
  simp [storeRoom, List.getElem?_set_self hlt]

theorem slotFresh_populateSlot (room : Room) (pid : String) (conn : Conn) :
    SlotFresh (populateSlot room pid conn) pid := by
  refine ⟨⟨freshGrid, ?_, ?_, ?_⟩, ?_, ?_⟩
  · simp [populateSlot, mapGet_mapSet_self]
  · simp [freshGrid]
  · intro b hb
    exact List.eq_of_mem_replicate hb
  · simp [populateSlot, mapGet_mapSet_self]
  · simp [populateSlot, mapGet_mapSet_self]

/-- C4: `create_room` always succeeds and leaves slot "1" of the new room, the
requester's slot, with a grid of exactly 100 cells all `false`, a planes-placed
count of 0 and ready `false`; a `join_room` on a registered room with fewer
than 2 populated slots succeeds and leaves slot "2", the requester's slot, in
that same initial state, and writes one `game_start` with `placementPhase =
true` per populated slot, to that slot's connection and carrying its slot id:
to slot "2", and to slot "1" when it was populated before the call. -/
theorem slots_start_fresh (gs : GameServer) (s : Session) (msg : Message) :
    (msg.Type_ = "create_room" →
      ∃ gs1 s1 addr room1,
        handleMessage gs s msg = some (gs1, s1,
          [(s.conn, { Type_ := "room_created", RoomID := (createRoom gs).1, PlayerID := "1",
                      PlacementPhase := true, PlanesPlaced := 0 })]) ∧
        mapGet gs1.rooms (createRoom gs).1 = some addr ∧
        gs1.heap[addr]? = some room1 ∧
        s1 = { s with currentRoom := some addr, currentPlayerID := "1" } ∧
        mapGet room1.Players "1" = some s.conn ∧
        SlotFresh room1 "1") ∧
    (msg.Type_ = "join_room" →
      ∀ addr room, mapGet gs.rooms msg.RoomID = some addr → gs.heap[addr]? = some room →
        mapLen room.Players < 2 →
        ∃ gs1 s1 outs room1,
          handleMessage gs s msg = some (gs1, s1, outs) ∧
          gs1.heap[addr]? = some room1 ∧
          s1 = { s with currentRoom := some addr, currentPlayerID := "2" } ∧
          mapGet room1.Players "2" = some s.conn ∧
          SlotFresh room1 "2" ∧
          (∀ c1, mapGet room.Players "1" = some c1 → mapGet room1.Players "1" = some c1) ∧
          (∀ pid c, mapGet room1.Players pid = some c →
            (c, { Type_ := "game_start", PlayerID := pid, PlacementPhase := true,
                  PlanesPlaced := mapIndex 0 room1.PlanesPlaced pid }) ∈ outs) ∧
          (∀ o ∈ outs, o.2.Type_ = "game_start" ∧ o.2.PlacementPhase = true) ∧
          outs.length = mapLen room1.Players) := by
  constructor
  · intro hType
    have hget : mapGet (createRoom gs).2.rooms (createRoom gs).1 = some gs.heap.length := by
      simp [createRoom, mapGet_mapSet_self]
    have hheap : (createRoom gs).2.heap[gs.heap.length]? = some (emptyRoom (createRoom gs).1) := by
      simp [createRoom]
    refine ⟨storeRoom (createRoom gs).2 gs.heap.length
        (populateSlot (emptyRoom (createRoom gs).1) "1" s.conn),
      { s with currentRoom := some gs.heap.length, currentPlayerID := "1" },
      gs.heap.length, populateSlot (emptyRoom (createRoom gs).1) "1" s.conn, ?_, ?_, ?_, rfl, ?_, ?_⟩
    · simp only [handleMessage, hType, if_true, handleCreateRoom, hget, hheap]
    · simpa [storeRoom] using hget
    · exact storeRoom_heap_self _ _ _ _ hheap
    · simp [populateSlot, mapGet_mapSet_self]
    · exact slotFresh_populateSlot _ _ _
  · intro hType addr room hReg hRoom hLen
    have hLen2 : ¬ mapLen room.Players ≥ 2 := by omega
    refine ⟨storeRoom gs addr (populateSlot room "2" s.conn),
      { s with currentRoom := some addr, currentPlayerID := "2" },
      joinBroadcast (populateSlot room "2" s.conn), populateSlot room "2" s.conn,
      ?_, ?_, rfl, ?_, ?_, ?_, ?_, ?_, ?_⟩
    · simp [handleMessage, hType, handleJoinRoom, hReg, hRoom, hLen2]
    · exact storeRoom_heap_self _ _ _ _ hRoom
    · simp [populateSlot, mapGet_mapSet_self]
    · exact slotFresh_populateSlot _ _ _
    · intro c1 h1
      simp only [populateSlot]
      rw [mapGet_mapSet_ne _ _ _ _ (by decide)]
      exact h1
    · intro pid c hpc
      have hmem := mapGet_mem _ _ _ hpc
      simp only [joinBroadcast, List.mem_map]
      exact ⟨(pid, c), hmem, rfl⟩
    · intro o ho
      simp only [joinBroadcast, List.mem_map] at ho
      obtain ⟨e, -, rfl⟩ := ho
      exact ⟨rfl, rfl⟩
    · simp [joinBroadcast, mapLen]

theorem slots_start_fresh_witness :
    (∃ gs1 s1 addr room1,
      handleMessage NewGameServer { conn := 1 } { Type_ := "create_room" } = some (gs1, s1,
        [(1, { Type_ := "room_created", RoomID := (createRoom NewGameServer).1,
               PlayerID := "1", PlacementPhase := true, PlanesPlaced := 0 })]) ∧
      mapGet gs1.rooms (createRoom NewGameServer).1 = some addr ∧
      gs1.heap[addr]? = some room1 ∧
      s1 = { conn := 1, currentRoom := some addr, currentPlayerID := "1" } ∧
      mapGet room1.Players "1" = some 1 ∧
      SlotFresh room1 "1") ∧
    (∃ gs1 s1 outs room1,
      handleMessage onePlayerServer { conn := 2 } { Type_ := "join_room", RoomID := "room_1" } =
        some (gs1, s1, outs) ∧
      gs1.heap[0]? = some room1 ∧
      s1 = { conn := 2, currentRoom := some 0, currentPlayerID := "2" } ∧
      mapGet room1.Players "2" = some 2 ∧
      SlotFresh room1 "2" ∧
      (∀ c1, mapGet onePlayerRoom.Players "1" = some c1 → mapGet room1.Players "1" = some c1) ∧
      (∀ pid c, mapGet room1.Players pid = some c →
        (c, { Type_ := "game_start", PlayerID := pid, PlacementPhase := true,
              PlanesPlaced := mapIndex 0 room1.PlanesPlaced pid }) ∈ outs) ∧
      (∀ o ∈ outs, o.2.Type_ = "game_start" ∧ o.2.PlacementPhase = true) ∧
      outs.length = mapLen room1.Players) :=
  ⟨(slots_start_fresh NewGameServer { conn := 1 } { Type_ := "create_room" }).1 rfl,
   (slots_start_fresh onePlayerServer { conn := 2 }
      { Type_ := "join_room", RoomID := "room_1" }).2 rfl 0 onePlayerRoom rfl rfl (by decide)⟩

/-- The one-player example server is what `create_room` from connection 1
produces on an empty registry. -/
theorem onePlayerServer_reached :
    handleMessage NewGameServer { conn := 1 } { Type_ := "create_room" } =
    some (onePlayerServer, { conn := 1, currentRoom := some 0, currentPlayerID := "1" },
      [(1, { Type_ := "room_created", RoomID := "room_1", PlayerID := "1",
             PlacementPhase := true })]) := by
  decide

/-! ## `place_plane` -/

theorem getElem?_set_true (grid : List Bool) (n i : Nat) (hn : n < grid.length) :
    (grid.set n true)[i]? = some true ↔ grid[i]? = some true ∨ i = n := by
  by_cases h : n = i
  · subst h
    simp [List.getElem?_set_self hn]
  · have h2 : ¬ i = n := fun h3 => h h3.symm
    simp [List.getElem?_set_ne h, h2]

/-- On a slice of at least 100 cells the grid loop does not panic, keeps the
length, and sets exactly the cells named by a position in `[0, 100)`. -/
theorem updateGrid_spec (ps : List Int) : ∀ grid : List Bool, 100 ≤ grid.length →
    ∃ grid1, updateGrid grid ps = some grid1 ∧ grid1.length = grid.length ∧
      ∀ i : Nat, grid1[i]? = some true ↔ (grid[i]? = some true ∨ (i < 100 ∧ (i : Int) ∈ ps)) := by
  induction ps with
  | nil => intro grid _; exact ⟨grid, rfl, rfl, by simp⟩
  | cons pos rest ih =>
    intro grid hlen
    by_cases hin : 0 ≤ pos ∧ pos < 100
    · have hlt : pos.toNat < grid.length := by omega
      obtain ⟨g1, hg1, hl1, hc1⟩ := ih (grid.set pos.toNat true) (by simpa using hlen)
      refine ⟨g1, ?_, by simpa using hl1, ?_⟩
      · simp [updateGrid, hin, hlt, hg1]
      · intro i
        rw [hc1 i, getElem?_set_true grid pos.toNat i hlt]
        have hcast : (i = pos.toNat) ↔ ((i : Int) = pos) := by omega
        simp only [List.mem_cons]
        constructor
        · rintro ((h | h) | ⟨h1, h2⟩)
          · exact Or.inl h
          · exact Or.inr ⟨by omega, Or.inl (hcast.mp h)⟩
          · exact Or.inr ⟨h1, Or.inr h2⟩
        · rintro (h | ⟨h1, h2 | h2⟩)
          · exact Or.inl (Or.inl h)
          · exact Or.inl (Or.inr (hcast.mpr h2))
          · exact Or.inr ⟨h1, h2⟩
    · obtain ⟨g1, hg1, hl1, hc1⟩ := ih grid hlen
      refine ⟨g1, ?_, hl1, ?_⟩
      · simp only [updateGrid, hin, if_false, hg1]
      · intro i
        rw [hc1 i]
        simp only [List.mem_cons]
        constructor
        · rintro (h | ⟨h1, h2⟩)
          · exact Or.inl h
          · exact Or.inr ⟨h1, Or.inr h2⟩
        · rintro (h | ⟨h1, h2 | h2⟩)
          · exact Or.inl h
          · exact absurd (show 0 ≤ pos ∧ pos < 100 by omega) hin
          · exact Or.inr ⟨h1, h2⟩

theorem getOtherPlayerID_ne (pid : String) : getOtherPlayerID pid ≠ pid := by
  unfold getOtherPlayerID
  by_cases h : pid = "1"
  · subst h; decide
  · simpa [h] using fun h2 : "1" = pid => h h2.symm

theorem onCurrentRoom_resolved (gs : GameServer) (s : Session) (addr : Nat) (room : Room)
    (f : Room → Option (Room × List Out))
    (hCur : s.currentRoom = some addr) (hRoom : gs.heap[addr]? = some room) :
    onCurrentRoom gs s f = (f room).map fun r => (storeRoom gs addr r.1, s, r.2) := by
  simp only [onCurrentRoom, hCur, hRoom]
  cases f room <;> rfl

theorem handleMessage_place_plane (gs : GameServer) (s : Session) (msg : Message) (addr : Nat)
    (room : Room) (hType : msg.Type_ = "place_plane")
    (hCur : s.currentRoom = some addr) (hRoom : gs.heap[addr]? = some room) :
    handleMessage gs s msg =
      (placePlane room s.currentPlayerID msg).map fun room1 =>
        (storeRoom gs addr room1, s, placePlaneOutputs room1 s msg) := by
  unfold handleMessage
  rw [hType, if_neg (by decide), if_neg (by decide), if_pos rfl,
    onCurrentRoom_resolved gs s addr room _ hCur hRoom]
  cases placePlane room s.currentPlayerID msg <;> rfl

/-- With a non-empty position list and a grid of at least 100 cells,
`place_plane` does not panic; the room it stores differs from the old one in
the requester's count, head list and grid. -/
theorem placePlane_nonempty (room : Room) (pid : String) (msg : Message) (grid : List Bool)
    (p0 : Int) (tl : List Int) (hGrid : mapGet room.PlayerGrids pid = some grid)
    (hLen : 100 ≤ grid.length) (hPos : msg.Positions = p0 :: tl) :
    ∃ grid1, updateGrid grid msg.Positions = some grid1 ∧
      placePlane room pid msg = some { room with
        PlanesPlaced := mapSet room.PlanesPlaced pid msg.PlanesPlaced
        PlaneHeads := mapSet room.PlaneHeads pid (mapIndex [] room.PlaneHeads pid ++ [p0])
        PlayerGrids := mapSet room.PlayerGrids pid grid1 } := by
  obtain ⟨grid1, hg1, -, -⟩ := updateGrid_spec msg.Positions grid hLen
  refine ⟨grid1, hg1, ?_⟩
  rw [hPos] at hg1
  simp [placePlane, hPos, mapIndex, hGrid, hg1]

/-- C5: for a slot whose grid has length 100 and a non-empty position list,
`place_plane` does not panic and stores a room in which the slot's grid still
has length 100 and cell `i` is `true` iff it was `true` before or `i` occurs in
`positions` (only positions in `[0, 100)` name a cell), the slot's head list is
the old one with `positions[0]` appended, the slot's planes-placed count is the
client-reported value, and the other slot's grid and head list are unchanged.
With `positions = [12, 13, 14]` on an all-`false` grid and an empty head list,
exactly cells 12, 13, 14 are `true` and the head list is `[12]`. -/
theorem place_plane_marks_cells (gs : GameServer) (s : Session) (msg : Message) (addr : Nat)
    (room : Room) (grid : List Bool) (hType : msg.Type_ = "place_plane")
    (hCur : s.currentRoom = some addr) (hRoom : gs.heap[addr]? = some room)
    (hGrid : mapGet room.PlayerGrids s.currentPlayerID = some grid)
    (hLen : grid.length = 100) (hPos : msg.Positions ≠ []) :
    ∃ room1 outs grid1,
      handleMessage gs s msg = some (storeRoom gs addr room1, s, outs) ∧
      mapGet room1.PlayerGrids s.currentPlayerID = some grid1 ∧
      grid1.length = 100 ∧
      (∀ i : Nat, i < 100 →
        (grid1[i]? = some true ↔ grid[i]? = some true ∨ (i : Int) ∈ msg.Positions)) ∧
      (∀ p0, msg.Positions[0]? = some p0 →
        mapGet room1.PlaneHeads s.currentPlayerID =
          some (mapIndex [] room.PlaneHeads s.currentPlayerID ++ [p0])) ∧
      mapGet room1.PlanesPlaced s.currentPlayerID = some msg.PlanesPlaced ∧
      mapGet room1.PlayerGrids (getOtherPlayerID s.currentPlayerID) =
        mapGet room.PlayerGrids (getOtherPlayerID s.currentPlayerID) ∧
      mapGet room1.PlaneHeads (getOtherPlayerID s.currentPlayerID) =
        mapGet room.PlaneHeads (getOtherPlayerID s.currentPlayerID) ∧
      (msg.Positions = [12, 13, 14] → (∀ b ∈ grid, b = false) →
        mapIndex [] room.PlaneHeads s.currentPlayerID = [] →
        (∀ i : Nat, i < 100 → (grid1[i]? = some true ↔ i = 12 ∨ i = 13 ∨ i = 14)) ∧
        mapGet room1.PlaneHeads s.currentPlayerID = some [12]) := by
  obtain ⟨p0, tl, hp⟩ : ∃ p0 tl, msg.Positions = p0 :: tl := by
    cases h : msg.Positions with
    | nil => exact absurd h hPos
    | cons a b => exact ⟨a, b, rfl⟩
  obtain ⟨grid1, hg1, hplace⟩ :=
    placePlane_nonempty room s.currentPlayerID msg grid p0 tl hGrid (by omega) hp
  obtain ⟨grid2, hg2, hl2, hc2⟩ := updateGrid_spec msg.Positions grid (by omega)
  have hgg : grid2 = grid1 := by
    rw [hg1] at hg2
    exact (Option.some.inj hg2).symm
  subst hgg
  have hne := getOtherPlayerID_ne s.currentPlayerID
  have hcells : ∀ i : Nat, i < 100 →
      (grid2[i]? = some true ↔ grid[i]? = some true ∨ (i : Int) ∈ msg.Positions) := by
    intro i hi
    rw [hc2 i]
    constructor
    · rintro (h | ⟨-, h⟩)
      · exact Or.inl h
      · exact Or.inr h
    · rintro (h | h)
      · exact Or.inl h
      · exact Or.inr ⟨hi, h⟩
  have hheads : mapGet (mapSet room.PlaneHeads s.currentPlayerID
      (mapIndex [] room.PlaneHeads s.currentPlayerID ++ [p0])) s.currentPlayerID =
      some (mapIndex [] room.PlaneHeads s.currentPlayerID ++ [p0]) := mapGet_mapSet_self _ _ _
  refine ⟨{ room with
      PlanesPlaced := mapSet room.PlanesPlaced s.currentPlayerID msg.PlanesPlaced
      PlaneHeads := mapSet room.PlaneHeads s.currentPlayerID
        (mapIndex [] room.PlaneHeads s.currentPlayerID ++ [p0])
      PlayerGrids := mapSet room.PlayerGrids s.currentPlayerID grid2 },
    placePlaneOutputs { room with
      PlanesPlaced := mapSet room.PlanesPlaced s.currentPlayerID msg.PlanesPlaced
      PlaneHeads := mapSet room.PlaneHeads s.currentPlayerID
        (mapIndex [] room.PlaneHeads s.currentPlayerID ++ [p0])
      PlayerGrids := mapSet room.PlayerGrids s.currentPlayerID grid2 } s msg,
    grid2, ?_, ?_, ?_, hcells, ?_, ?_, ?_, ?_, ?_⟩
  · rw [handleMessage_place_plane gs s msg addr room hType hCur hRoom, hplace]
    rfl
  · exact mapGet_mapSet_self _ _ _
  · omega
  · intro q hq
    rw [hp] at hq
    simp only [List.getElem?_cons_zero, Option.some.injEq] at hq
    subst hq
    exact hheads
  · exact mapGet_mapSet_self _ _ _
  · exact mapGet_mapSet_ne _ _ _ _ hne
  · exact mapGet_mapSet_ne _ _ _ _ hne
  · intro h12 hfalse hnoheads
    constructor
    · intro i hi
      rw [hcells i hi, h12]
      have hnot : ¬ grid[i]? = some true := by
        intro hget
        have hmem := List.getElem?_mem hget
        exact absurd (hfalse true hmem) (by decide)
      simp only [hnot, false_or, List.mem_cons, List.mem_singleton, List.not_mem_nil, or_false]
      omega
    · rw [h12] at hp
      have hp0 : p0 = 12 := by
        have := (List.cons.inj hp).1
        exact this.symm
      rw [hheads, hnoheads, hp0]
      rfl

theorem place_plane_marks_cells_witness :
    ∃ room1 outs grid1,
      handleMessage onePlayerServer sessionOne
          { Type_ := "place_plane", PlanesPlaced := 1, Positions := [12, 13, 14] } =
        some (storeRoom onePlayerServer 0 room1, sessionOne, outs) ∧
      mapGet room1.PlayerGrids "1" = some grid1 ∧
      grid1.length = 100 ∧
      (∀ i : Nat, i < 100 →
        (grid1[i]? = some true ↔ freshGrid[i]? = some true ∨ (i : Int) ∈ [(12 : Int), 13, 14])) ∧
      (∀ p0, [(12 : Int), 13, 14][0]? = some p0 →
        mapGet room1.PlaneHeads "1" = some (mapIndex [] onePlayerRoom.PlaneHeads "1" ++ [p0])) ∧
      mapGet room1.PlanesPlaced "1" = some 1 ∧
      mapGet room1.PlayerGrids "2" = mapGet onePlayerRoom.PlayerGrids "2" ∧
      mapGet room1.PlaneHeads "2" = mapGet onePlayerRoom.PlaneHeads "2" ∧
      ([(12 : Int), 13, 14] = [12, 13, 14] → (∀ b ∈ freshGrid, b = false) →
        mapIndex [] onePlayerRoom.PlaneHeads "1" = [] →
        (∀ i : Nat, i < 100 → (grid1[i]? = some true ↔ i = 12 ∨ i = 13 ∨ i = 14)) ∧
        mapGet room1.PlaneHeads "1" = some [12]) :=
  place_plane_marks_cells onePlayerServer sessionOne
    { Type_ := "place_plane", PlanesPlaced := 1, Positions := [12, 13, 14] } 0 onePlayerRoom
    freshGrid rfl rfl rfl rfl rfl (by decide)

/-- The first placement of the specification's scenario, evaluated: cells 12,
13 and 14 of slot "1" become `true`, its head list becomes `[12]`, and the
requester receives the confirmation. -/
theorem place_plane_example :
    handleMessage onePlayerServer sessionOne
        { Type_ := "place_plane", PlanesPlaced := 1, Positions := [12, 13, 14] } =
      some ({ onePlayerServer with heap := [{ onePlayerRoom with
                PlanesPlaced := [("1", 1)]
                PlaneHeads := [("1", [12])]
                PlayerGrids := [("1", List.replicate 12 false ++ [true, true, true] ++
                  List.replicate 85 false)] }] },
            sessionOne,
            [(1, { Type_ := "placement_update", PlanesPlaced := 1, PlacementPhase := true })]) := by
  decide

theorem placePlane_frame (room room1 : Room) (pid : String) (msg : Message)
    (h : placePlane room pid msg = some room1) :
    room1.Players = room.Players ∧ room1.ReadyPlayers = room.ReadyPlayers ∧
    room1.PlanesPlaced = mapSet room.PlanesPlaced pid msg.PlanesPlaced := by
  unfold placePlane at h
  split at h
  · cases h
    exact ⟨rfl, rfl, rfl⟩
  · simp only at h
    split at h
    · cases h
    · split at h <;> cases h <;> exact ⟨rfl, rfl, rfl⟩

theorem placePlane_ready_irrelevant (room : Room) (pid : String) (msg : Message)
    (rp : GoMap Bool) :
    placePlane { room with ReadyPlayers := rp } pid msg =
      (placePlane room pid msg).map fun r => { r with ReadyPlayers := rp } := by
  unfold placePlane
  split
  · rfl
  · simp only
    split
    · rfl
    · split <;> rfl

/-- C6: a `place_plane` message that is handled (the handler does not panic,
which is the case whenever the requester's grid has length 100) stores the
client-reported count and, when the opponent slot is populated, writes besides
the requester's confirmation exactly one `opponent_placement_update`, to the
opponent, whose `opponentReady` is `true` exactly when the stored count is at
least 3; when the opponent slot is not populated it writes the confirmation
only.  The messages do not depend on the ready flags of the room. -/
theorem opponent_ready_tracks_count (gs : GameServer) (s : Session) (msg : Message)
    (addr : Nat) (room : Room) (hType : msg.Type_ = "place_plane")
    (hCur : s.currentRoom = some addr) (hRoom : gs.heap[addr]? = some room) :
    (∀ grid, mapGet room.PlayerGrids s.currentPlayerID = some grid → grid.length = 100 →
      ∃ res, handleMessage gs s msg = some res) ∧
    (∀ gs1 s1 outs, handleMessage gs s msg = some (gs1, s1, outs) →
      ∃ room1, gs1.heap[addr]? = some room1 ∧
        mapGet room1.PlanesPlaced s.currentPlayerID = some msg.PlanesPlaced ∧
        (∀ opp, mapGet room.Players (getOtherPlayerID s.currentPlayerID) = some opp →
          ∃ m, outs = [(s.conn, { Type_ := "placement_update", PlanesPlaced := msg.PlanesPlaced,
                                  PlacementPhase := true }), (opp, m)] ∧
            m.Type_ = "opponent_placement_update" ∧
            (m.OpponentReady = true ↔ 3 ≤ mapIndex 0 room1.PlanesPlaced s.currentPlayerID)) ∧
        (mapGet room.Players (getOtherPlayerID s.currentPlayerID) = none →
          outs = [(s.conn, { Type_ := "placement_update", PlanesPlaced := msg.PlanesPlaced,
                             PlacementPhase := true })])) ∧
    (∀ rp : GoMap Bool,
      (handleMessage (storeRoom gs addr { room with ReadyPlayers := rp }) s msg).map
          (fun r => r.2.2) =
        (handleMessage gs s msg).map (fun r => r.2.2)) := by
  have hstep := handleMessage_place_plane gs s msg addr room hType hCur hRoom
  refine ⟨?_, ?_, ?_⟩
  · intro grid hGrid hLen
    rw [hstep]
    cases hp : msg.Positions with
    | nil =>
      have hpl : placePlane room s.currentPlayerID msg = some { room with
          PlanesPlaced := mapSet room.PlanesPlaced s.currentPlayerID msg.PlanesPlaced } := by
        simp [placePlane, hp]
      exact ⟨_, by rw [hpl]; rfl⟩
    | cons p0 tl =>
      obtain ⟨grid1, -, hplace⟩ :=
        placePlane_nonempty room s.currentPlayerID msg grid p0 tl hGrid (by omega) hp
      exact ⟨_, by rw [hplace]; rfl⟩
  · intro gs1 s1 outs hres
    rw [hstep] at hres
    cases hpl : placePlane room s.currentPlayerID msg with
    | none => simp [hpl] at hres
    | some room1 =>
      obtain ⟨hPlayers, -, hCount⟩ := placePlane_frame room room1 _ msg hpl
      simp only [hpl, Option.map_some', Option.some.injEq, Prod.mk.injEq] at hres
      obtain ⟨rfl, rfl, rfl⟩ := hres
      have hc : mapGet room1.PlanesPlaced s.currentPlayerID = some msg.PlanesPlaced := by
        rw [hCount]; exact mapGet_mapSet_self _ _ _
      refine ⟨room1, storeRoom_heap_self _ _ _ _ hRoom, hc, ?_, ?_⟩
      · intro opp hopp
        refine ⟨{ Type_ := "opponent_placement_update",
                  OpponentReady := decide (msg.PlanesPlaced ≥ 3),
                  PlacementPhase := true }, ?_, rfl, ?_⟩
        · simp [placePlaneOutputs, hPlayers, hopp]
        · simp [mapIndex, hc]
      · intro hnone
        simp [placePlaneOutputs, hPlayers, hnone]
  · intro rp
    have hRoom2 : (storeRoom gs addr { room with ReadyPlayers := rp }).heap[addr]? =
        some { room with ReadyPlayers := rp } := storeRoom_heap_self _ _ _ _ hRoom
    rw [hstep, handleMessage_place_plane _ s msg addr _ hType hCur hRoom2,
      placePlane_ready_irrelevant]
    cases placePlane room s.currentPlayerID msg <;> rfl

theorem opponent_ready_tracks_count_witness :
    (∀ grid, mapGet twoPlayerRoom.PlayerGrids "1" = some grid → grid.length = 100 →
      ∃ res, handleMessage twoPlayerServer sessionOne
        { Type_ := "place_plane", PlanesPlaced := 3, Positions := [20, 21] } = some res) ∧
    (∀ gs1 s1 outs, handleMessage twoPlayerServer sessionOne
        { Type_ := "place_plane", PlanesPlaced := 3, Positions := [20, 21] } =
          some (gs1, s1, outs) →
      ∃ room1, gs1.heap[0]? = some room1 ∧
        mapGet room1.PlanesPlaced "1" = some 3 ∧
        (∀ opp, mapGet twoPlayerRoom.Players "2" = some opp →
          ∃ m, outs = [(1, { Type_ := "placement_update", PlanesPlaced := 3,
                             PlacementPhase := true }), (opp, m)] ∧
            m.Type_ = "opponent_placement_update" ∧
            (m.OpponentReady = true ↔ 3 ≤ mapIndex 0 room1.PlanesPlaced "1")) ∧
        (mapGet twoPlayerRoom.Players "2" = none →
          outs = [(1, { Type_ := "placement_update", PlanesPlaced := 3,
                        PlacementPhase := true })])) ∧
    (∀ rp : GoMap Bool,
      (handleMessage (storeRoom twoPlayerServer 0 { twoPlayerRoom with ReadyPlayers := rp })
          sessionOne { Type_ := "place_plane", PlanesPlaced := 3, Positions := [20, 21] }).map
          (fun r => r.2.2) =
        (handleMessage twoPlayerServer sessionOne
          { Type_ := "place_plane", PlanesPlaced := 3, Positions := [20, 21] }).map
          (fun r => r.2.2)) :=
  opponent_ready_tracks_count twoPlayerServer sessionOne
    { Type_ := "place_plane", PlanesPlaced := 3, Positions := [20, 21] } 0 twoPlayerRoom
    rfl rfl rfl

/-! ## `player_ready` -/

theorem handleMessage_player_ready (gs : GameServer) (s : Session) (msg : Message) (addr : Nat)
    (room : Room) (hType : msg.Type_ = "player_ready")
    (hCur : s.currentRoom = some addr) (hRoom : gs.heap[addr]? = some room) :
    handleMessage gs s msg =
      some (storeRoom gs addr (playerReady room s.currentPlayerID), s,
        playerReadyOutputs (playerReady room s.currentPlayerID)) := by
  unfold handleMessage
  rw [hType, if_neg (by decide), if_neg (by decide), if_neg (by decide), if_neg (by decide),
    if_pos rfl, onCurrentRoom_resolved gs s addr room _ hCur hRoom]
  rfl

/-- C7: `player_ready` sets the requester's ready flag to `true` and changes no
other flag and no connection.  If after that update the flags of slot "1" and
slot "2" are both `true`, it writes one `game_start` with `placementPhase =
false` per populated slot, to that slot's connection, with `myTurn = true` for
slot "1" and `myTurn = false` for any other slot, so for slot "2"; otherwise it
writes nothing.  Hence, in a room with a populated slot, a `game_start` is
written if and only if both flags are `true`. -/
theorem player_ready_starts_battle (gs : GameServer) (s : Session) (msg : Message)
    (addr : Nat) (room : Room) (hType : msg.Type_ = "player_ready")
    (hCur : s.currentRoom = some addr) (hRoom : gs.heap[addr]? = some room) :
    ∃ room1 outs,
      handleMessage gs s msg = some (storeRoom gs addr room1, s, outs) ∧
      (storeRoom gs addr room1).heap[addr]? = some room1 ∧
      mapGet room1.ReadyPlayers s.currentPlayerID = some true ∧
      (∀ k, k ≠ s.currentPlayerID → mapGet room1.ReadyPlayers k = mapGet room.ReadyPlayers k) ∧
      room1.Players = room.Players ∧
      ((mapIndex false room1.ReadyPlayers "1" = true ∧
          mapIndex false room1.ReadyPlayers "2" = true) →
        outs = room1.Players.map (fun e =>
          (e.2, { Type_ := "game_start", PlayerID := e.1, PlacementPhase := false,
                  MyTurn := decide (e.1 = "1") })) ∧
        (∀ c, mapGet room1.Players "1" = some c →
          (c, { Type_ := "game_start", PlayerID := "1", PlacementPhase := false,
                MyTurn := true }) ∈ outs) ∧
        (∀ c, mapGet room1.Players "2" = some c →
          (c, { Type_ := "game_start", PlayerID := "2", PlacementPhase := false,
                MyTurn := false }) ∈ outs)) ∧
      (¬ (mapIndex false room1.ReadyPlayers "1" = true ∧
          mapIndex false room1.ReadyPlayers "2" = true) → outs = []) ∧
      (room.Players ≠ [] →
        ((∃ o ∈ outs, o.2.Type_ = "game_start" ∧ o.2.PlacementPhase = false) ↔
          (mapIndex false room1.ReadyPlayers "1" = true ∧
            mapIndex false room1.ReadyPlayers "2" = true))) := by
  refine ⟨playerReady room s.currentPlayerID,
    playerReadyOutputs (playerReady room s.currentPlayerID),
    handleMessage_player_ready gs s msg addr room hType hCur hRoom,
    storeRoom_heap_self _ _ _ _ hRoom, mapGet_mapSet_self _ _ _,
    fun k hk => mapGet_mapSet_ne _ _ _ _ hk, rfl, ?_, ?_, ?_⟩
  · intro hboth
    have hout : playerReadyOutputs (playerReady room s.currentPlayerID) =
        (playerReady room s.currentPlayerID).Players.map (fun e =>
          (e.2, { Type_ := "game_start", PlayerID := e.1, PlacementPhase := false,
                  MyTurn := decide (e.1 = "1") })) := by
      simp [playerReadyOutputs, hboth.1, hboth.2]
    refine ⟨hout, ?_, ?_⟩
    · intro c hc
      rw [hout]
      exact List.mem_map.mpr ⟨("1", c), mapGet_mem _ _ _ hc, rfl⟩
    · intro c hc
      rw [hout]
      exact List.mem_map.mpr ⟨("2", c), mapGet_mem _ _ _ hc, rfl⟩
  · intro hnot
    unfold playerReadyOutputs
    rw [if_neg]
    simpa using hnot
  · intro hne
    constructor
    · rintro ⟨o, ho, -⟩
      by_contra hnot
      have : playerReadyOutputs (playerReady room s.currentPlayerID) = [] := by
        unfold playerReadyOutputs
        rw [if_neg]
        simpa using hnot
      rw [this] at ho
      exact absurd ho (List.not_mem_nil o)
    · intro hboth
      obtain ⟨e, he⟩ := List.exists_mem_of_ne_nil _ hne
      refine ⟨(e.2, { Type_ := "game_start", PlayerID := e.1, PlacementPhase := false,
                      MyTurn := decide (e.1 = "1") }), ?_, rfl, rfl⟩
      simp only [playerReadyOutputs, hboth.1, hboth.2, Bool.and_self, if_true]
      exact List.mem_map.mpr ⟨e, he, rfl⟩

theorem player_ready_starts_battle_witness :
    ∃ room1 outs,
      handleMessage oneReadyServer sessionTwo { Type_ := "player_ready" } =
        some (storeRoom oneReadyServer 0 room1, sessionTwo, outs) ∧
      (storeRoom oneReadyServer 0 room1).heap[0]? = some room1 ∧
      mapGet room1.ReadyPlayers "2" = some true ∧
      (∀ k, k ≠ "2" → mapGet room1.ReadyPlayers k = mapGet oneReadyRoom.ReadyPlayers k) ∧
      room1.Players = oneReadyRoom.Players ∧
      ((mapIndex false room1.ReadyPlayers "1" = true ∧
          mapIndex false room1.ReadyPlayers "2" = true) →
        outs = room1.Players.map (fun e =>
          (e.2, { Type_ := "game_start", PlayerID := e.1, PlacementPhase := false,
                  MyTurn := decide (e.1 = "1") })) ∧
        (∀ c, mapGet room1.Players "1" = some c →
          (c, { Type_ := "game_start", PlayerID := "1", PlacementPhase := false,
                MyTurn := true }) ∈ outs) ∧
        (∀ c, mapGet room1.Players "2" = some c →
          (c, { Type_ := "game_start", PlayerID := "2", PlacementPhase := false,
                MyTurn := false }) ∈ outs)) ∧
      (¬ (mapIndex false room1.ReadyPlayers "1" = true ∧
          mapIndex false room1.ReadyPlayers "2" = true) → outs = []) ∧
      (oneReadyRoom.Players ≠ [] →
        ((∃ o ∈ outs, o.2.Type_ = "game_start" ∧ o.2.PlacementPhase = false) ↔
          (mapIndex false room1.ReadyPlayers "1" = true ∧
            mapIndex false room1.ReadyPlayers "2" = true))) :=
  player_ready_starts_battle oneReadyServer sessionTwo { Type_ := "player_ready" } 0
    oneReadyRoom rfl rfl rfl

/-- The readiness steps of the specification's scenario, evaluated: the first
`player_ready` (slot "1") writes nothing, the second (slot "2") writes
`game_start` to both slots, with `myTurn` set for slot "1" only. -/
theorem player_ready_example :
    handleMessage twoPlayerServer sessionOne { Type_ := "player_ready" } =
      some (oneReadyServer, sessionOne, []) ∧
    handleMessage oneReadyServer sessionTwo { Type_ := "player_ready" } =
      some ({ oneReadyServer with heap := [{ oneReadyRoom with
                ReadyPlayers := [("1", true), ("2", true)] }] },
            sessionTwo,
            [(1, { Type_ := "game_start", PlayerID := "1", MyTurn := true }),
             (2, { Type_ := "game_start", PlayerID := "2", MyTurn := false })]) := by
  decide

/-! ## `attack` -/

theorem handleMessage_attack (gs : GameServer) (s : Session) (msg : Message) (addr : Nat)
    (room : Room) (hType : msg.Type_ = "attack")
    (hCur : s.currentRoom = some addr) (hRoom : gs.heap[addr]? = some room) :
    handleMessage gs s msg =
      some (storeRoom gs addr (resolveAttack room s.currentPlayerID msg.Position).1, s,
        attackOutputs (resolveAttack room s.currentPlayerID msg.Position).1 s msg.Position
          (resolveAttack room s.currentPlayerID msg.Position).2.1
          (resolveAttack room s.currentPlayerID msg.Position).2.2) := by
  unfold handleMessage
  rw [hType, if_neg (by decide), if_neg (by decide), if_neg (by decide), if_neg (by decide),
    if_neg (by decide), if_pos rfl, onCurrentRoom_resolved gs s addr room _ hCur hRoom]
  rfl

/-- C8: `attack` never panics and is never refused: it always writes an
`attack_result` to the requester, followed only by `opponent_attack`
notices.  The reported `isHit` is the opponent's grid cell at the position when
`0 <= position < len(grid)`, and `false` otherwise: for a negative position,
for an absent opponent grid, and for a position of 100 or more on a grid of at
most 100 cells. -/
theorem attack_hit_flag (gs : GameServer) (s : Session) (msg : Message) (addr : Nat)
    (room : Room) (hType : msg.Type_ = "attack")
    (hCur : s.currentRoom = some addr) (hRoom : gs.heap[addr]? = some room) :
    ∃ room1 m rest,
      handleMessage gs s msg = some (storeRoom gs addr room1, s, (s.conn, m) :: rest) ∧
      m.Type_ = "attack_result" ∧ m.Position = msg.Position ∧
      (∀ o ∈ rest, o.2.Type_ = "opponent_attack") ∧
      (0 ≤ msg.Position →
        msg.Position < (mapIndex [] room.PlayerGrids
          (getOtherPlayerID s.currentPlayerID)).length →
        (mapIndex [] room.PlayerGrids (getOtherPlayerID s.currentPlayerID))[msg.Position.toNat]? =
          some m.IsHit) ∧
      (¬ (0 ≤ msg.Position ∧ msg.Position <
          (mapIndex [] room.PlayerGrids (getOtherPlayerID s.currentPlayerID)).length) →
        m.IsHit = false) ∧
      (msg.Position < 0 → m.IsHit = false) ∧
      (mapGet room.PlayerGrids (getOtherPlayerID s.currentPlayerID) = none →
        m.IsHit = false) ∧
      ((mapIndex [] room.PlayerGrids (getOtherPlayerID s.currentPlayerID)).length ≤ 100 →
        100 ≤ msg.Position → m.IsHit = false) := by
  have hout : ∀ o ∈ (match mapGet (resolveAttack room s.currentPlayerID msg.Position).1.Players
        (getOtherPlayerID s.currentPlayerID) with
      | some opponent =>
        [(opponent, attackMessage "opponent_attack"
          (resolveAttack room s.currentPlayerID msg.Position).1 s.currentPlayerID msg.Position
          (resolveAttack room s.currentPlayerID msg.Position).2.1
          (resolveAttack room s.currentPlayerID msg.Position).2.2)]
      | none => ([] : List Out)), o.2.Type_ = "opponent_attack" := by
    intro o ho
    split at ho
    · rw [List.mem_singleton] at ho
      subst ho
      rfl
    · exact absurd ho (List.not_mem_nil o)
  have hmiss : ¬ (0 ≤ msg.Position ∧ msg.Position <
      (mapIndex [] room.PlayerGrids (getOtherPlayerID s.currentPlayerID)).length) →
      (resolveAttack room s.currentPlayerID msg.Position).2.1 = false := by
    intro hnot
    simp only [resolveAttack]
    rw [if_neg hnot]
  refine ⟨_, _, _, handleMessage_attack gs s msg addr room hType hCur hRoom, rfl, rfl, hout,
    ?_, hmiss, ?_, ?_, ?_⟩
  · intro h0 hlt
    have hlt2 : msg.Position.toNat <
        (mapIndex [] room.PlayerGrids (getOtherPlayerID s.currentPlayerID)).length := by omega
    simp only [attackMessage, resolveAttack]
    rw [if_pos ⟨h0, hlt⟩]
    simp [List.getD, List.getElem?_eq_getElem hlt2]
  · intro hneg
    exact hmiss (by omega)
  · intro hnone
    apply hmiss
    simp [mapIndex, hnone]
  · intro hlen hge
    exact hmiss (by omega)

theorem attack_hit_flag_witness :
    ∃ room1 m rest,
      handleMessage battleServer sessionOne { Type_ := "attack", Position := 11 } =
        some (storeRoom battleServer 0 room1, sessionOne, (1, m) :: rest) ∧
      m.Type_ = "attack_result" ∧ m.Position = 11 ∧
      (∀ o ∈ rest, o.2.Type_ = "opponent_attack") ∧
      ((0 : Int) ≤ 11 →
        (11 : Int) < (mapIndex [] battleRoom.PlayerGrids (getOtherPlayerID "1")).length →
        (mapIndex [] battleRoom.PlayerGrids (getOtherPlayerID "1"))[(11 : Int).toNat]? =
          some m.IsHit) ∧
      (¬ ((0 : Int) ≤ 11 ∧ (11 : Int) <
          (mapIndex [] battleRoom.PlayerGrids (getOtherPlayerID "1")).length) →
        m.IsHit = false) ∧
      ((11 : Int) < 0 → m.IsHit = false) ∧
      (mapGet battleRoom.PlayerGrids (getOtherPlayerID "1") = none → m.IsHit = false) ∧
      ((mapIndex [] battleRoom.PlayerGrids (getOtherPlayerID "1")).length ≤ 100 →
        (100 : Int) ≤ 11 → m.IsHit = false) :=
  attack_hit_flag battleServer sessionOne { Type_ := "attack", Position := 11 } 0 battleRoom
    rfl rfl rfl

/-- The battle example is reached from the two-player example when each
connection sends its three placements and its readiness message. -/
theorem battleServer_reached :
    (readLoop twoPlayerServer sessionOne placementMessages).bind
      (fun r => (readLoop r.1 sessionTwo placementMessages).map fun r2 => (r2.1, r2.2.1)) =
    some (battleServer, sessionTwo) := by
  decide

/-- Attacks on the battle example, evaluated: an occupied cell is a hit, a free
cell, a negative position and a position past the board are misses. -/
theorem attack_examples :
    ((handleMessage battleServer sessionOne { Type_ := "attack", Position := 11 }).map
      fun r => r.2.2.map fun o => (o.1, o.2.Type_, o.2.IsHit)) =
      some [(1, "attack_result", true), (2, "opponent_attack", true)] ∧
    ((handleMessage battleServer sessionOne { Type_ := "attack", Position := 55 }).map
      fun r => r.2.2.map fun o => (o.1, o.2.Type_, o.2.IsHit)) =
      some [(1, "attack_result", false), (2, "opponent_attack", false)] ∧
    ((handleMessage battleServer sessionOne { Type_ := "attack", Position := -1 }).map
      fun r => r.2.2.map fun o => (o.1, o.2.Type_, o.2.IsHit)) =
      some [(1, "attack_result", false), (2, "opponent_attack", false)] ∧
    ((handleMessage battleServer sessionOne { Type_ := "attack", Position := 100 }).map
      fun r => r.2.2.map fun o => (o.1, o.2.Type_, o.2.IsHit)) =
      some [(1, "attack_result", false), (2, "opponent_attack", false)] := by
  decide

theorem headLoop_of_mem (pos : Int) (pid : String) (headHits : GoMap Int) :
    ∀ heads : List Int, pos ∈ heads →
      headLoop pos pid heads headHits =
        (true, mapSet headHits pid (wrapInt64 (mapIndex 0 headHits pid + 1))) := by
  intro heads
  induction heads with
  | nil => intro h; exact absurd h (List.not_mem_nil pos)
  | cons h t ih =>
    intro hmem
    by_cases heq : pos = h
    · simp [headLoop, heq]
    · have ht : pos ∈ t := by
        rcases List.mem_cons.mp hmem with h1 | h1
        · exact absurd h1 heq
        · exact h1
      simp only [headLoop, heq, if_false]
      exact ih ht

theorem headLoop_of_not_mem (pos : Int) (pid : String) (headHits : GoMap Int) :
    ∀ heads : List Int, pos ∉ heads → headLoop pos pid heads headHits = (false, headHits) := by
  intro heads
  induction heads with
  | nil => intro _; rfl
  | cons h t ih =>
    intro hmem
    have heq : ¬ pos = h := fun h1 => hmem (h1 ▸ List.mem_cons_self _ _)
    have ht : pos ∉ t := fun h1 => hmem (List.mem_cons_of_mem _ h1)
    simp only [headLoop, heq, if_false]
    exact ih ht

theorem wrapInt64_of_range (x : Int) (hlo : -9223372036854775808 ≤ x)
    (hhi : x < 9223372036854775808) : wrapInt64 x = x := by
  unfold wrapInt64
  omega

/-- An attack inside the opponent's grid at a recorded head: the head flag is
set and the attacker's counter is incremented, nothing else changes. -/
theorem resolveAttack_head (room : Room) (pid : String) (pos : Int)
    (hIn : 0 ≤ pos ∧ pos < ((mapIndex [] room.PlayerGrids (getOtherPlayerID pid)).length : Int))
    (hHead : pos ∈ mapIndex [] room.PlaneHeads (getOtherPlayerID pid)) :
    resolveAttack room pid pos =
      ({ room with
          HeadHits := mapSet room.HeadHits pid (wrapInt64 (mapIndex 0 room.HeadHits pid + 1)) },
        (mapIndex [] room.PlayerGrids (getOtherPlayerID pid)).getD pos.toNat false, true) := by
  simp only [resolveAttack]
  rw [if_pos hIn, headLoop_of_mem pos pid room.HeadHits _ hHead]

/-- An attack outside the opponent's grid changes nothing and sets no flag. -/
theorem resolveAttack_outside (room : Room) (pid : String) (pos : Int)
    (hOut : ¬ (0 ≤ pos ∧
      pos < ((mapIndex [] room.PlayerGrids (getOtherPlayerID pid)).length : Int))) :
    resolveAttack room pid pos = (room, false, false) := by
  simp only [resolveAttack]
  rw [if_neg hOut]

/-- The stray-head example is reached from the two-player example when slot
"2" places a plane whose positions lie off the board. -/
theorem strayHeadServer_reached :
    handleMessage twoPlayerServer sessionTwo
        { Type_ := "place_plane", PlanesPlaced := 1, Positions := [150, 151, 152] } =
      some (strayHeadServer, sessionTwo,
        [(2, { Type_ := "placement_update", PlanesPlaced := 1, PlacementPhase := true }),
         (1, { Type_ := "opponent_placement_update", PlacementPhase := true })]) := by
  decide

/-- C9 as stated fails: in a room where slot "2" has recorded the head position
150 (its `place_plane` named cells off the board), the attack of slot "1" at
position 150 equals a recorded head of the opponent, yet it is reported with
`isHeadHit = false` and the attacker's counter stays 0. -/
theorem head_hit_off_board_counterexample :
    (150 : Int) ∈ mapIndex [] strayHeadRoom.PlaneHeads (getOtherPlayerID "1") ∧
    mapIndex 0 strayHeadRoom.HeadHits "1" = 0 ∧
    handleMessage strayHeadServer sessionOne { Type_ := "attack", Position := 150 } =
      some (strayHeadServer, sessionOne,
        [(1, { Type_ := "attack_result", Position := 150, IsHit := false, IsHeadHit := false,
               HeadHits := 0, GameOver := false, Winner := "1", MyTurn := true }),
         (2, { Type_ := "opponent_attack", Position := 150, IsHit := false, IsHeadHit := false,
               HeadHits := 0, GameOver := false, Winner := "1", MyTurn := true })]) := by
  decide

/-- C9, amended: for an attack whose position lies inside the opponent's grid
(`0 <= position < len(grid)`) and equals one of the opponent's recorded head
positions, however often it is recorded, the result has `isHeadHit = true` and
reports the attacker's new counter, which is the previous value plus 1 in Go
`int` arithmetic, so exactly the previous value plus 1 below the largest
`int`; the defender's counter is unchanged.  An attack outside the opponent's
grid is reported with `isHeadHit = false` and changes no counter. -/
theorem head_hit_increments_counter (gs : GameServer) (s : Session) (msg : Message)
    (addr : Nat) (room : Room) (hType : msg.Type_ = "attack")
    (hCur : s.currentRoom = some addr) (hRoom : gs.heap[addr]? = some room) :
    ∃ room1 m rest,
      handleMessage gs s msg = some (storeRoom gs addr room1, s, (s.conn, m) :: rest) ∧
      (storeRoom gs addr room1).heap[addr]? = some room1 ∧
      m.Type_ = "attack_result" ∧
      m.HeadHits = mapIndex 0 room1.HeadHits s.currentPlayerID ∧
      mapGet room1.HeadHits (getOtherPlayerID s.currentPlayerID) =
        mapGet room.HeadHits (getOtherPlayerID s.currentPlayerID) ∧
      ((0 ≤ msg.Position ∧ msg.Position <
          ((mapIndex [] room.PlayerGrids (getOtherPlayerID s.currentPlayerID)).length : Int)) →
        msg.Position ∈ mapIndex [] room.PlaneHeads (getOtherPlayerID s.currentPlayerID) →
        m.IsHeadHit = true ∧
        mapIndex 0 room1.HeadHits s.currentPlayerID =
          wrapInt64 (mapIndex 0 room.HeadHits s.currentPlayerID + 1) ∧
        (-9223372036854775808 ≤ mapIndex 0 room.HeadHits s.currentPlayerID →
          mapIndex 0 room.HeadHits s.currentPlayerID < 9223372036854775807 →
          mapIndex 0 room1.HeadHits s.currentPlayerID =
            mapIndex 0 room.HeadHits s.currentPlayerID + 1)) ∧
      (¬ (0 ≤ msg.Position ∧ msg.Position <
          ((mapIndex [] room.PlayerGrids (getOtherPlayerID s.currentPlayerID)).length : Int)) →
        m.IsHeadHit = false ∧ room1 = room) := by
  have hne := getOtherPlayerID_ne s.currentPlayerID
  refine ⟨_, _, _, handleMessage_attack gs s msg addr room hType hCur hRoom,
    storeRoom_heap_self _ _ _ _ hRoom, rfl, rfl, ?_, ?_, ?_⟩
  · by_cases hIn : 0 ≤ msg.Position ∧ msg.Position <
        ((mapIndex [] room.PlayerGrids (getOtherPlayerID s.currentPlayerID)).length : Int)
    · by_cases hHead :
          msg.Position ∈ mapIndex [] room.PlaneHeads (getOtherPlayerID s.currentPlayerID)
      · rw [resolveAttack_head room _ _ hIn hHead]
        exact mapGet_mapSet_ne _ _ _ _ hne
      · simp only [resolveAttack]
        rw [if_pos hIn, headLoop_of_not_mem _ _ _ _ hHead]
    · rw [resolveAttack_outside room _ _ hIn]
  · intro hIn hHead
    rw [resolveAttack_head room _ _ hIn hHead]
    have hnew : mapIndex 0 (mapSet room.HeadHits s.currentPlayerID
        (wrapInt64 (mapIndex 0 room.HeadHits s.currentPlayerID + 1))) s.currentPlayerID =
        wrapInt64 (mapIndex 0 room.HeadHits s.currentPlayerID + 1) := by
      simp [mapIndex, mapGet_mapSet_self]
    refine ⟨rfl, hnew, ?_⟩
    intro hlo hhi
    simp only
    rw [hnew]
    exact wrapInt64_of_range _ (by omega) (by omega)
  · intro hOut
    rw [resolveAttack_outside room _ _ hOut]
    exact ⟨rfl, rfl⟩

theorem head_hit_increments_counter_witness :
    ∃ room1 m rest,
      handleMessage battleServer sessionOne { Type_ := "attack", Position := 10 } =
        some (storeRoom battleServer 0 room1, sessionOne, (1, m) :: rest) ∧
      (storeRoom battleServer 0 room1).heap[0]? = some room1 ∧
      m.Type_ = "attack_result" ∧
      m.HeadHits = mapIndex 0 room1.HeadHits "1" ∧
      mapGet room1.HeadHits (getOtherPlayerID "1") =
        mapGet battleRoom.HeadHits (getOtherPlayerID "1") ∧
      (((0 : Int) ≤ 10 ∧ (10 : Int) <
          ((mapIndex [] battleRoom.PlayerGrids (getOtherPlayerID "1")).length : Int)) →
        (10 : Int) ∈ mapIndex [] battleRoom.PlaneHeads (getOtherPlayerID "1") →
        m.IsHeadHit = true ∧
        mapIndex 0 room1.HeadHits "1" = wrapInt64 (mapIndex 0 battleRoom.HeadHits "1" + 1) ∧
        (-9223372036854775808 ≤ mapIndex 0 battleRoom.HeadHits "1" →
          mapIndex 0 battleRoom.HeadHits "1" < 9223372036854775807 →
          mapIndex 0 room1.HeadHits "1" = mapIndex 0 battleRoom.HeadHits "1" + 1)) ∧
      (¬ ((0 : Int) ≤ 10 ∧ (10 : Int) <
          ((mapIndex [] battleRoom.PlayerGrids (getOtherPlayerID "1")).length : Int)) →
        m.IsHeadHit = false ∧ room1 = battleRoom) :=
  head_hit_increments_counter battleServer sessionOne { Type_ := "attack", Position := 10 } 0
    battleRoom rfl rfl rfl

/-- A head hit on the battle example, evaluated: slot "1" attacks position 10,
a head of slot "2"; the counter of slot "1" goes from 0 to 1 and slot "2" has
no counter before or after. -/
theorem head_hit_example :
    handleMessage battleServer sessionOne { Type_ := "attack", Position := 10 } =
      some ({ battleServer with heap := [{ battleRoom with HeadHits := [("1", 1)] }] },
        sessionOne,
        [(1, { Type_ := "attack_result", Position := 10, IsHit := true, IsHeadHit := true,
               HeadHits := 1, GameOver := false, Winner := "1", MyTurn := true }),
         (2, { Type_ := "opponent_attack", Position := 10, IsHit := true, IsHeadHit := true,
               HeadHits := 1, GameOver := false, Winner := "1", MyTurn := true })]) := by
  decide

/-- One attack inside the opponent's grid at a recorded head, as a step of the
handler. -/
theorem attack_head_step (gs : GameServer) (s : Session) (msg : Message) (addr : Nat)
    (room : Room) (hType : msg.Type_ = "attack")
    (hCur : s.currentRoom = some addr) (hRoom : gs.heap[addr]? = some room)
    (hIn : 0 ≤ msg.Position ∧ msg.Position <
      ((mapIndex [] room.PlayerGrids (getOtherPlayerID s.currentPlayerID)).length : Int))
    (hHead : msg.Position ∈ mapIndex [] room.PlaneHeads (getOtherPlayerID s.currentPlayerID)) :
    handleMessage gs s msg =
      some (storeRoom gs addr (withHeadHits room s.currentPlayerID
              (wrapInt64 (mapIndex 0 room.HeadHits s.currentPlayerID + 1))), s,
        attackOutputs (withHeadHits room s.currentPlayerID
            (wrapInt64 (mapIndex 0 room.HeadHits s.currentPlayerID + 1))) s msg.Position
          ((mapIndex [] room.PlayerGrids (getOtherPlayerID s.currentPlayerID)).getD
            msg.Position.toNat false) true) := by
  rw [handleMessage_attack gs s msg addr room hType hCur hRoom,
    resolveAttack_head room _ _ hIn hHead]
  rfl

theorem mapIndex_withHeadHits (room : Room) (pid : String) (v : Int) :
    mapIndex 0 (withHeadHits room pid v).HeadHits pid = v := by
  simp [withHeadHits, mapIndex, mapGet_mapSet_self]

theorem attackOutputs_results (room : Room) (s : Session) (pos : Int) (isHit isHeadHit : Bool) :
    (attackOutputs room s pos isHit isHeadHit).filter
        (fun o => decide (o.2.Type_ = "attack_result")) =
      [(s.conn, attackMessage "attack_result" room s.currentPlayerID pos isHit isHeadHit)] := by
  unfold attackOutputs
  cases mapGet room.Players (getOtherPlayerID s.currentPlayerID) <;>
    simp [attackMessage]

theorem attackOutputs_notices (room : Room) (s : Session) (pos : Int) (isHit isHeadHit : Bool)
    (opp : Conn) (hOpp : mapGet room.Players (getOtherPlayerID s.currentPlayerID) = some opp) :
    (attackOutputs room s pos isHit isHeadHit).filter
        (fun o => decide (o.2.Type_ = "opponent_attack")) =
      [(opp, attackMessage "opponent_attack" room s.currentPlayerID pos isHit isHeadHit)] := by
  unfold attackOutputs
  simp [hOpp, attackMessage]

/-- The edge-head example is reached from the two-player example when slot "2"
places a plane at positions 100, 101 and 102. -/
theorem edgeHeadServer_reached :
    handleMessage twoPlayerServer sessionTwo
        { Type_ := "place_plane", PlanesPlaced := 1, Positions := [100, 101, 102] } =
      some (edgeHeadServer, sessionTwo,
        [(2, { Type_ := "placement_update", PlanesPlaced := 1, PlacementPhase := true }),
         (1, { Type_ := "opponent_placement_update", PlacementPhase := true })]) := by
  decide

/-- C10 as stated fails: in a room where slot "2" has recorded the head position
100 and the counter of slot "1" is 0, three attacks of slot "1" at position 100,
each at a recorded head of the opponent, are all reported with `gameOver =
false`; the counter of slot "1" stays 0. -/
theorem three_attacks_off_board_counterexample :
    (100 : Int) ∈ mapIndex [] edgeHeadRoom.PlaneHeads (getOtherPlayerID "1") ∧
    mapIndex 0 edgeHeadRoom.HeadHits "1" = 0 ∧
    readLoop edgeHeadServer sessionOne
        [{ Type_ := "attack", Position := 100 }, { Type_ := "attack", Position := 100 },
         { Type_ := "attack", Position := 100 }] =
      some (edgeHeadServer, sessionOne,
        [(1, { Type_ := "attack_result", Position := 100, IsHeadHit := false, HeadHits := 0,
               GameOver := false, Winner := "1", MyTurn := true }),
         (2, { Type_ := "opponent_attack", Position := 100, IsHeadHit := false, HeadHits := 0,
               GameOver := false, Winner := "1", MyTurn := true }),
         (1, { Type_ := "attack_result", Position := 100, IsHeadHit := false, HeadHits := 0,
               GameOver := false, Winner := "1", MyTurn := true }),
         (2, { Type_ := "opponent_attack", Position := 100, IsHeadHit := false, HeadHits := 0,
               GameOver := false, Winner := "1", MyTurn := true }),
         (1, { Type_ := "attack_result", Position := 100, IsHeadHit := false, HeadHits := 0,
               GameOver := false, Winner := "1", MyTurn := true }),
         (2, { Type_ := "opponent_attack", Position := 100, IsHeadHit := false, HeadHits := 0,
               GameOver := false, Winner := "1", MyTurn := true })]) := by
  decide

/-- C10, amended: the `gameOver` flag of every attack result is `true` iff the
attacker's updated head-hit counter is at least 3, and `winner` is the
attacker's slot id.  Starting from a room in which the attacker's counter is 0,
three successive attacks by the same attacker, each inside the opponent's grid
(`0 <= position < len(grid)`) and at a recorded head position of the opponent
(possibly the same one), are handled without panic; the first two results
report `gameOver = false` and the third `gameOver = true`, each with `winner`
the attacker's slot id, and a populated opponent slot is sent the same three
verdicts. -/
theorem third_head_hit_ends_game (gs : GameServer) (s : Session) (addr : Nat) (room : Room)
    (hCur : s.currentRoom = some addr) (hRoom : gs.heap[addr]? = some room) :
    (∀ msg : Message, msg.Type_ = "attack" →
      ∃ room1 m rest,
        handleMessage gs s msg = some (storeRoom gs addr room1, s, (s.conn, m) :: rest) ∧
        m.Type_ = "attack_result" ∧
        (m.GameOver = true ↔ 3 ≤ mapIndex 0 room1.HeadHits s.currentPlayerID) ∧
        m.Winner = s.currentPlayerID) ∧
    (∀ m1 m2 m3 : Message,
      m1.Type_ = "attack" → m2.Type_ = "attack" → m3.Type_ = "attack" →
      mapIndex 0 room.HeadHits s.currentPlayerID = 0 →
      (∀ m ∈ [m1, m2, m3],
        (0 ≤ m.Position ∧ m.Position <
          ((mapIndex [] room.PlayerGrids (getOtherPlayerID s.currentPlayerID)).length : Int)) ∧
        m.Position ∈ mapIndex [] room.PlaneHeads (getOtherPlayerID s.currentPlayerID)) →
      ∃ gs3 outs,
        readLoop gs s [m1, m2, m3] = some (gs3, s, outs) ∧
        (outs.filter (fun o => decide (o.2.Type_ = "attack_result"))).map
            (fun o => (o.1, o.2.GameOver, o.2.Winner)) =
          [(s.conn, false, s.currentPlayerID), (s.conn, false, s.currentPlayerID),
           (s.conn, true, s.currentPlayerID)] ∧
        (∀ opp, mapGet room.Players (getOtherPlayerID s.currentPlayerID) = some opp →
          (outs.filter (fun o => decide (o.2.Type_ = "opponent_attack"))).map
              (fun o => (o.1, o.2.GameOver, o.2.Winner)) =
            [(opp, false, s.currentPlayerID), (opp, false, s.currentPlayerID),
             (opp, true, s.currentPlayerID)])) := by
  constructor
  · intro msg hType
    refine ⟨_, _, _, handleMessage_attack gs s msg addr room hType hCur hRoom, rfl, ?_, rfl⟩
    simp [attackMessage]
  · intro m1 m2 m3 h1 h2 h3 hZero hHit
    have hm1 := hHit m1 (by simp)
    have hm2 := hHit m2 (by simp)
    have hm3 := hHit m3 (by simp)
    have w1 : wrapInt64 (0 + 1) = 1 := by decide
    have w2 : wrapInt64 (1 + 1) = 2 := by decide
    have w3 : wrapInt64 (2 + 1) = 3 := by decide
    have step1 := attack_head_step gs s m1 addr room h1 hCur hRoom hm1.1 hm1.2
    rw [hZero, w1] at step1
    have hRoom1 := storeRoom_heap_self gs addr room (withHeadHits room s.currentPlayerID 1) hRoom
    have step2 := attack_head_step _ s m2 addr (withHeadHits room s.currentPlayerID 1) h2 hCur
      hRoom1 hm2.1 hm2.2
    rw [mapIndex_withHeadHits, w2] at step2
    have hRoom2 := storeRoom_heap_self _ addr _
      (withHeadHits (withHeadHits room s.currentPlayerID 1) s.currentPlayerID 2) hRoom1
    have step3 := attack_head_step _ s m3 addr
      (withHeadHits (withHeadHits room s.currentPlayerID 1) s.currentPlayerID 2) h3 hCur
      hRoom2 hm3.1 hm3.2
    rw [mapIndex_withHeadHits, w3] at step3
    refine ⟨_, _, by simp only [readLoop, step1, step2, step3]; rfl, ?_, ?_⟩
    · simp only [List.filter_append, attackOutputs_results, List.filter_nil, List.append_nil,
        List.singleton_append, List.map_cons, List.map_nil, attackMessage,
        mapIndex_withHeadHits]
      simp
    · intro opp hOpp
      have ho1 : mapGet (withHeadHits room s.currentPlayerID 1).Players
          (getOtherPlayerID s.currentPlayerID) = some opp := hOpp
      have ho2 : mapGet (withHeadHits (withHeadHits room s.currentPlayerID 1)
          s.currentPlayerID 2).Players (getOtherPlayerID s.currentPlayerID) = some opp := hOpp
      have ho3 : mapGet (withHeadHits (withHeadHits (withHeadHits room s.currentPlayerID 1)
          s.currentPlayerID 2) s.currentPlayerID 3).Players
          (getOtherPlayerID s.currentPlayerID) = some opp := hOpp
      simp only [List.filter_append, attackOutputs_notices _ _ _ _ _ opp ho1,
        attackOutputs_notices _ _ _ _ _ opp ho2, attackOutputs_notices _ _ _ _ _ opp ho3,
        List.filter_nil, List.append_nil,
        List.singleton_append, List.map_cons, List.map_nil, attackMessage,
        mapIndex_withHeadHits]
      simp

theorem third_head_hit_ends_game_witness :
    ∃ gs3 outs,
      readLoop battleServer sessionOne
          [{ Type_ := "attack", Position := 10 }, { Type_ := "attack", Position := 10 },
           { Type_ := "attack", Position := 10 }] = some (gs3, sessionOne, outs) ∧
      (outs.filter (fun o => decide (o.2.Type_ = "attack_result"))).map
          (fun o => (o.1, o.2.GameOver, o.2.Winner)) =
        [(1, false, "1"), (1, false, "1"), (1, true, "1")] ∧
      (∀ opp, mapGet battleRoom.Players (getOtherPlayerID "1") = some opp →
        (outs.filter (fun o => decide (o.2.Type_ = "opponent_attack"))).map
            (fun o => (o.1, o.2.GameOver, o.2.Winner)) =
          [(opp, false, "1"), (opp, false, "1"), (opp, true, "1")]) :=
  (third_head_hit_ends_game battleServer sessionOne 0 battleRoom rfl rfl).2
    { Type_ := "attack", Position := 10 } { Type_ := "attack", Position := 10 }
    { Type_ := "attack", Position := 10 } rfl rfl rfl (by decide) (by decide)

/-- The end of the specification's scenario, evaluated: slot "1" attacks
position 10, a head of slot "2", three times; the third result and the third
notice carry `gameOver = true` and `winner = "1"`. -/
theorem three_head_hits_example :
    readLoop battleServer sessionOne
        [{ Type_ := "attack", Position := 10 }, { Type_ := "attack", Position := 10 },
         { Type_ := "attack", Position := 10 }] =
      some ({ battleServer with heap := [{ battleRoom with HeadHits := [("1", 3)] }] },
        sessionOne,
        [(1, { Type_ := "attack_result", Position := 10, IsHit := true, IsHeadHit := true,
               HeadHits := 1, GameOver := false, Winner := "1", MyTurn := true }),
         (2, { Type_ := "opponent_attack", Position := 10, IsHit := true, IsHeadHit := true,
               HeadHits := 1, GameOver := false, Winner := "1", MyTurn := true }),
         (1, { Type_ := "attack_result", Position := 10, IsHit := true, IsHeadHit := true,
               HeadHits := 2, GameOver := false, Winner := "1", MyTurn := true }),
         (2, { Type_ := "opponent_attack", Position := 10, IsHit := true, IsHeadHit := true,
               HeadHits := 2, GameOver := false, Winner := "1", MyTurn := true }),
         (1, { Type_ := "attack_result", Position := 10, IsHit := true, IsHeadHit := true,
               HeadHits := 3, GameOver := true, Winner := "1", MyTurn := false }),
         (2, { Type_ := "opponent_attack", Position := 10, IsHit := true, IsHeadHit := true,
               HeadHits := 3, GameOver := true, Winner := "1", MyTurn := false })]) := by
  decide

/-! ## `attack`: the two result messages -/

/-- An attack inside the opponent's grid at a position that is no recorded
head changes nothing. -/
theorem resolveAttack_no_head (room : Room) (pid : String) (pos : Int)
    (hIn : 0 ≤ pos ∧ pos < ((mapIndex [] room.PlayerGrids (getOtherPlayerID pid)).length : Int))
    (hHead : pos ∉ mapIndex [] room.PlaneHeads (getOtherPlayerID pid)) :
    resolveAttack room pid pos =
      (room, (mapIndex [] room.PlayerGrids (getOtherPlayerID pid)).getD pos.toNat false,
        false) := by
  simp only [resolveAttack]
  rw [if_pos hIn, headLoop_of_not_mem pos pid room.HeadHits _ hHead]

/-- An attack changes at most the attacker's head-hit counter, which it leaves
as it was or increments. -/
theorem resolveAttack_frame (room : Room) (pid : String) (pos : Int) :
    (resolveAttack room pid pos).1 = room ∨
    (resolveAttack room pid pos).1 =
      withHeadHits room pid (wrapInt64 (mapIndex 0 room.HeadHits pid + 1)) := by
  by_cases hIn : 0 ≤ pos ∧
      pos < ((mapIndex [] room.PlayerGrids (getOtherPlayerID pid)).length : Int)
  · by_cases hHead : pos ∈ mapIndex [] room.PlaneHeads (getOtherPlayerID pid)
    · right
      rw [resolveAttack_head room pid pos hIn hHead]
      rfl
    · left
      rw [resolveAttack_no_head room pid pos hIn hHead]
  · left
    rw [resolveAttack_outside room pid pos hIn]

theorem mem_attackOutputs (room : Room) (s : Session) (pos : Int) (isHit isHeadHit : Bool)
    (o : Out) (ho : o ∈ attackOutputs room s pos isHit isHeadHit) :
    o.2 = attackMessage "attack_result" room s.currentPlayerID pos isHit isHeadHit ∨
    o.2 = attackMessage "opponent_attack" room s.currentPlayerID pos isHit isHeadHit := by
  unfold attackOutputs at ho
  rcases List.mem_cons.mp ho with h | h
  · left
    rw [h]
  · right
    split at h
    · rw [List.mem_singleton] at h
      rw [h]
    · exact absurd h (List.not_mem_nil o)

/-- The game-over example is what three attacks of slot "1" at position 10
make of the battle example; the third result carries `gameOver = true`. -/
theorem gameOverServer_reached :
    (readLoop battleServer sessionOne
        [{ Type_ := "attack", Position := 10 }, { Type_ := "attack", Position := 10 },
         { Type_ := "attack", Position := 10 }]).map
      (fun r => (r.1, r.2.2.getLast?.map fun o => (o.2.GameOver, o.2.Winner))) =
    some (gameOverServer, some (true, "1")) := by
  decide

/-- C11 as stated fails: after the game in `room_1` has ended (the counter of
slot "1" is 3, see `gameOverServer_reached`), the next attack, by slot "2",
is answered with `myTurn = true` in both messages. -/
theorem my_turn_after_game_over_counterexample :
    handleMessage gameOverServer sessionTwo { Type_ := "attack", Position := 55 } =
      some (gameOverServer, sessionTwo,
        [(2, { Type_ := "attack_result", Position := 55, IsHit := false, IsHeadHit := false,
               HeadHits := 0, GameOver := false, Winner := "2", MyTurn := true }),
         (1, { Type_ := "opponent_attack", Position := 55, IsHit := false, IsHeadHit := false,
               HeadHits := 0, GameOver := false, Winner := "2", MyTurn := true })]) := by
  decide

/-- C11, amended: every message of an attack carries `myTurn = not gameOver`,
where `gameOver` is `true` iff the attacking slot's own updated head-hit
counter is at least 3.  So once a slot's counter has reached 3 (and is below
the largest `int`), the messages of every later attack by that slot carry
`myTurn = false` and the counter stays at least 3; the messages of an attack by
a slot whose updated counter is below 3 carry `myTurn = true`, whether or not
the other slot has already won. -/
theorem my_turn_negates_game_over (gs : GameServer) (s : Session) (msg : Message)
    (addr : Nat) (room : Room) (hType : msg.Type_ = "attack")
    (hCur : s.currentRoom = some addr) (hRoom : gs.heap[addr]? = some room) :
    ∃ room1 outs,
      handleMessage gs s msg = some (storeRoom gs addr room1, s, outs) ∧
      (storeRoom gs addr room1).heap[addr]? = some room1 ∧
      (∀ o ∈ outs, o.2.MyTurn = !o.2.GameOver ∧
        (o.2.GameOver = true ↔ 3 ≤ mapIndex 0 room1.HeadHits s.currentPlayerID)) ∧
      (3 ≤ mapIndex 0 room.HeadHits s.currentPlayerID →
        mapIndex 0 room.HeadHits s.currentPlayerID < 9223372036854775807 →
        3 ≤ mapIndex 0 room1.HeadHits s.currentPlayerID ∧
        ∀ o ∈ outs, o.2.MyTurn = false) ∧
      (mapIndex 0 room1.HeadHits s.currentPlayerID < 3 → ∀ o ∈ outs, o.2.MyTurn = true) := by
  have hflags : ∀ o ∈ attackOutputs (resolveAttack room s.currentPlayerID msg.Position).1 s
      msg.Position (resolveAttack room s.currentPlayerID msg.Position).2.1
      (resolveAttack room s.currentPlayerID msg.Position).2.2,
      o.2.MyTurn = !o.2.GameOver ∧
      (o.2.GameOver = true ↔ 3 ≤ mapIndex 0
        (resolveAttack room s.currentPlayerID msg.Position).1.HeadHits s.currentPlayerID) := by
    intro o ho
    rcases mem_attackOutputs _ _ _ _ _ o ho with h | h <;> rw [h] <;> simp [attackMessage]
  refine ⟨_, _, handleMessage_attack gs s msg addr room hType hCur hRoom,
    storeRoom_heap_self _ _ _ _ hRoom, hflags, ?_, ?_⟩
  · intro h3 hmax
    have hge : 3 ≤ mapIndex 0
        (resolveAttack room s.currentPlayerID msg.Position).1.HeadHits s.currentPlayerID := by
      rcases resolveAttack_frame room s.currentPlayerID msg.Position with h | h
      · rw [h]; exact h3
      · rw [h, mapIndex_withHeadHits, wrapInt64_of_range _ (by omega) (by omega)]
        omega
    refine ⟨hge, ?_⟩
    intro o ho
    obtain ⟨h1, h2⟩ := hflags o ho
    rw [h1, h2.mpr hge]
    rfl
  · intro hlt o ho
    obtain ⟨h1, h2⟩ := hflags o ho
    have hno : ¬ o.2.GameOver = true := fun h => by
      have := h2.mp h
      omega
    rw [h1]
    simpa using hno

theorem my_turn_negates_game_over_witness :
    ∃ room1 outs,
      handleMessage gameOverServer sessionOne { Type_ := "attack", Position := 55 } =
        some (storeRoom gameOverServer 0 room1, sessionOne, outs) ∧
      (storeRoom gameOverServer 0 room1).heap[0]? = some room1 ∧
      (∀ o ∈ outs, o.2.MyTurn = !o.2.GameOver ∧
        (o.2.GameOver = true ↔ 3 ≤ mapIndex 0 room1.HeadHits "1")) ∧
      (3 ≤ mapIndex 0 gameOverRoom.HeadHits "1" →
        mapIndex 0 gameOverRoom.HeadHits "1" < 9223372036854775807 →
        3 ≤ mapIndex 0 room1.HeadHits "1" ∧ ∀ o ∈ outs, o.2.MyTurn = false) ∧
      (mapIndex 0 room1.HeadHits "1" < 3 → ∀ o ∈ outs, o.2.MyTurn = true) :=
  my_turn_negates_game_over gameOverServer sessionOne { Type_ := "attack", Position := 55 } 0
    gameOverRoom rfl rfl rfl

/-- C12: an attack is always handled; the `attack_result` written to the
attacker carries the attacked position, the flags `isHit` and `isHeadHit` the
attack resolved to, the attacker's updated head-hit counter, `gameOver` (that
counter is at least 3), the attacker's slot id as `winner` and `myTurn = not
gameOver`; when the opponent slot is populated, the only other message is the
`opponent_attack` to the opponent, equal to the `attack_result` in every field
but the type; when it is not populated there is no other message. -/
theorem attack_messages_agree (gs : GameServer) (s : Session) (msg : Message)
    (addr : Nat) (room : Room) (hType : msg.Type_ = "attack")
    (hCur : s.currentRoom = some addr) (hRoom : gs.heap[addr]? = some room) :
    ∃ room1 m outs,
      handleMessage gs s msg = some (storeRoom gs addr room1, s, outs) ∧
      (storeRoom gs addr room1).heap[addr]? = some room1 ∧
      m.Type_ = "attack_result" ∧
      m.Position = msg.Position ∧
      m.IsHit = (resolveAttack room s.currentPlayerID msg.Position).2.1 ∧
      m.IsHeadHit = (resolveAttack room s.currentPlayerID msg.Position).2.2 ∧
      m.HeadHits = mapIndex 0 room1.HeadHits s.currentPlayerID ∧
      m.GameOver = decide (3 ≤ mapIndex 0 room1.HeadHits s.currentPlayerID) ∧
      m.Winner = s.currentPlayerID ∧
      m.MyTurn = !m.GameOver ∧
      (∀ opp, mapGet room.Players (getOtherPlayerID s.currentPlayerID) = some opp →
        outs = [(s.conn, m), (opp, { m with Type_ := "opponent_attack" })]) ∧
      (mapGet room.Players (getOtherPlayerID s.currentPlayerID) = none →
        outs = [(s.conn, m)]) := by
  have hPlayers : (resolveAttack room s.currentPlayerID msg.Position).1.Players =
      room.Players := by
    rcases resolveAttack_frame room s.currentPlayerID msg.Position with h | h <;> rw [h]
    rfl
  refine ⟨_, attackMessage "attack_result"
      (resolveAttack room s.currentPlayerID msg.Position).1 s.currentPlayerID msg.Position
      (resolveAttack room s.currentPlayerID msg.Position).2.1
      (resolveAttack room s.currentPlayerID msg.Position).2.2, _,
    handleMessage_attack gs s msg addr room hType hCur hRoom,
    storeRoom_heap_self _ _ _ _ hRoom, rfl, rfl, rfl, rfl, rfl, rfl, rfl, rfl, ?_, ?_⟩
  · intro opp hOpp
    simp [attackOutputs, hPlayers, hOpp, attackMessage]
  · intro hnone
    simp [attackOutputs, hPlayers, hnone]

theorem attack_messages_agree_witness :
    ∃ room1 m outs,
      handleMessage battleServer sessionTwo { Type_ := "attack", Position := 20 } =
        some (storeRoom battleServer 0 room1, sessionTwo, outs) ∧
      (storeRoom battleServer 0 room1).heap[0]? = some room1 ∧
      m.Type_ = "attack_result" ∧
      m.Position = 20 ∧
      m.IsHit = (resolveAttack battleRoom "2" 20).2.1 ∧
      m.IsHeadHit = (resolveAttack battleRoom "2" 20).2.2 ∧
      m.HeadHits = mapIndex 0 room1.HeadHits "2" ∧
      m.GameOver = decide (3 ≤ mapIndex 0 room1.HeadHits "2") ∧
      m.Winner = "2" ∧
      m.MyTurn = !m.GameOver ∧
      (∀ opp, mapGet battleRoom.Players (getOtherPlayerID "2") = some opp →
        outs = [(2, m), (opp, { m with Type_ := "opponent_attack" })]) ∧
      (mapGet battleRoom.Players (getOtherPlayerID "2") = none → outs = [(2, m)]) :=
  attack_messages_agree battleServer sessionTwo { Type_ := "attack", Position := 20 } 0
    battleRoom rfl rfl rfl

/-! ## Disconnect -/

theorem storeRoom_heap_other (gs : GameServer) (addr a : Nat) (r : Room) (h : a ≠ addr) :
    (storeRoom gs addr r).heap[a]? = gs.heap[a]? := by
  simp [storeRoom, List.getElem?_set_ne (Ne.symm h)]

/-- C13: when a connection with a resolved room and slot disconnects, the
cleanup is carried out: the slot's connection, planes-placed count, grid and
ready flag are absent from the room afterwards; every other slot, so the
opponent's, keeps its connection, count, grid and ready flag; exactly one
message, `opponent_disconnected`, is written to the opponent slot's connection
when that slot is populated, and none otherwise; the registry is unchanged, so
the room stays registered, and no other room changes. -/
theorem disconnect_removes_slot (gs : GameServer) (s : Session) (addr : Nat) (room : Room)
    (hCur : s.currentRoom = some addr) (hSlot : s.currentPlayerID ≠ "")
    (hRoom : gs.heap[addr]? = some room) :
    ∃ gs1 room1 outs,
      handleDisconnect gs s = some (gs1, outs) ∧
      gs1.rooms = gs.rooms ∧
      gs1.heap[addr]? = some room1 ∧
      (∀ a, a ≠ addr → gs1.heap[a]? = gs.heap[a]?) ∧
      mapGet room1.Players s.currentPlayerID = none ∧
      mapGet room1.PlanesPlaced s.currentPlayerID = none ∧
      mapGet room1.PlayerGrids s.currentPlayerID = none ∧
      mapGet room1.ReadyPlayers s.currentPlayerID = none ∧
      (∀ k, k ≠ s.currentPlayerID →
        mapGet room1.Players k = mapGet room.Players k ∧
        mapGet room1.PlanesPlaced k = mapGet room.PlanesPlaced k ∧
        mapGet room1.PlayerGrids k = mapGet room.PlayerGrids k ∧
        mapGet room1.ReadyPlayers k = mapGet room.ReadyPlayers k) ∧
      (∀ opp, mapGet room.Players (getOtherPlayerID s.currentPlayerID) = some opp →
        outs = [(opp, { Type_ := "opponent_disconnected" })]) ∧
      (mapGet room.Players (getOtherPlayerID s.currentPlayerID) = none → outs = []) := by
  have hne := getOtherPlayerID_ne s.currentPlayerID
  have hOther : mapGet (removeSlot room s.currentPlayerID).Players
      (getOtherPlayerID s.currentPlayerID) =
      mapGet room.Players (getOtherPlayerID s.currentPlayerID) :=
    mapGet_mapDelete_ne _ _ _ hne
  refine ⟨storeRoom gs addr (removeSlot room s.currentPlayerID),
    removeSlot room s.currentPlayerID,
    (match mapGet (removeSlot room s.currentPlayerID).Players
        (getOtherPlayerID s.currentPlayerID) with
      | some otherPlayer => [(otherPlayer, { Type_ := "opponent_disconnected" })]
      | none => []),
    ?_, rfl, storeRoom_heap_self _ _ _ _ hRoom,
    fun a ha => storeRoom_heap_other gs addr a _ ha,
    mapGet_mapDelete_self _ _, mapGet_mapDelete_self _ _, mapGet_mapDelete_self _ _,
    mapGet_mapDelete_self _ _,
    fun k hk => ⟨mapGet_mapDelete_ne _ _ _ hk, mapGet_mapDelete_ne _ _ _ hk,
      mapGet_mapDelete_ne _ _ _ hk, mapGet_mapDelete_ne _ _ _ hk⟩, ?_, ?_⟩
  · simp only [handleDisconnect, hCur, hSlot, if_false, hRoom]
  · intro opp hOpp
    simp only [hOther, hOpp]
  · intro hnone
    simp only [hOther, hnone]

theorem disconnect_removes_slot_witness :
    ∃ gs1 room1 outs,
      handleDisconnect twoHitsServer sessionTwo = some (gs1, outs) ∧
      gs1.rooms = twoHitsServer.rooms ∧
      gs1.heap[0]? = some room1 ∧
      (∀ a, a ≠ 0 → gs1.heap[a]? = twoHitsServer.heap[a]?) ∧
      mapGet room1.Players "2" = none ∧
      mapGet room1.PlanesPlaced "2" = none ∧
      mapGet room1.PlayerGrids "2" = none ∧
      mapGet room1.ReadyPlayers "2" = none ∧
      (∀ k, k ≠ "2" →
        mapGet room1.Players k = mapGet twoHitsRoom.Players k ∧
        mapGet room1.PlanesPlaced k = mapGet twoHitsRoom.PlanesPlaced k ∧
        mapGet room1.PlayerGrids k = mapGet twoHitsRoom.PlayerGrids k ∧
        mapGet room1.ReadyPlayers k = mapGet twoHitsRoom.ReadyPlayers k) ∧
      (∀ opp, mapGet twoHitsRoom.Players (getOtherPlayerID "2") = some opp →
        outs = [(opp, { Type_ := "opponent_disconnected" })]) ∧
      (mapGet twoHitsRoom.Players (getOtherPlayerID "2") = none → outs = []) :=
  disconnect_removes_slot twoHitsServer sessionTwo 0 twoHitsRoom rfl (by decide) rfl

/-- C14 fails on the code: the cleanup deletes the slot's entries of `Players`,
`PlanesPlaced`, `PlayerGrids` and `ReadyPlayers` but not of `HeadHits` (nor of
`PlaneHeads`).  Slot "2" scores two head hits and disconnects; the room still
holds the counter 2 for slot "2"; connection 3 then joins as slot "2" with that
counter, and its first head hit is reported with `headHits = 3` and `gameOver =
true`. -/
theorem head_hits_survive_disconnect :
    (readLoop battleServer sessionTwo
        [{ Type_ := "attack", Position := 10 }, { Type_ := "attack", Position := 10 }]).map
      (fun r => r.1) = some twoHitsServer ∧
    handleDisconnect twoHitsServer sessionTwo =
      some (leftServer, [(1, { Type_ := "opponent_disconnected" })]) ∧
    mapGet leftRoom.PlayerGrids "2" = none ∧
    mapGet leftRoom.HeadHits "2" = some 2 ∧
    handleMessage leftServer { conn := 3 } { Type_ := "join_room", RoomID := "room_1" } =
      some (rejoinedServer, sessionThree,
        [(1, { Type_ := "game_start", PlayerID := "1", PlacementPhase := true,
               PlanesPlaced := 3 }),
         (3, { Type_ := "game_start", PlayerID := "2", PlacementPhase := true })]) ∧
    mapIndex 0 rejoinedRoom.HeadHits "2" = 2 ∧
    (handleMessage rejoinedServer sessionThree { Type_ := "attack", Position := 10 }).map
      (fun r => r.2.2) =
      some [(3, { Type_ := "attack_result", Position := 10, IsHit := true, IsHeadHit := true,
                  HeadHits := 3, GameOver := true, Winner := "2", MyTurn := false }),
            (1, { Type_ := "opponent_attack", Position := 10, IsHit := true,
                  IsHeadHit := true, HeadHits := 3, GameOver := true, Winner := "2",
                  MyTurn := false })] := by
  decide

/-! ## `remove_plane` -/

theorem handleMessage_remove_plane (gs : GameServer) (s : Session) (msg : Message) (addr : Nat)
    (room : Room) (hType : msg.Type_ = "remove_plane")
    (hCur : s.currentRoom = some addr) (hRoom : gs.heap[addr]? = some room) :
    handleMessage gs s msg =
      some (storeRoom gs addr (removePlane room s.currentPlayerID msg), s,
        removePlaneOutputs (removePlane room s.currentPlayerID msg)) := by
  unfold handleMessage
  rw [hType, if_neg (by decide), if_neg (by decide), if_neg (by decide), if_pos rfl,
    onCurrentRoom_resolved gs s addr room _ hCur hRoom]
  rfl

/-- C15: `remove_plane` is always handled; in the room it stores, the
requester's planes-placed count is the client-supplied value and the
requester's ready flag is `false`, and nothing else has changed: the
connections, all grids, all head lists and all head-hit counters are as before,
and so are the count and the ready flag of every other slot. -/
theorem remove_plane_changes_count_and_ready (gs : GameServer) (s : Session) (msg : Message)
    (addr : Nat) (room : Room) (hType : msg.Type_ = "remove_plane")
    (hCur : s.currentRoom = some addr) (hRoom : gs.heap[addr]? = some room) :
    ∃ room1 outs,
      handleMessage gs s msg = some (storeRoom gs addr room1, s, outs) ∧
      (storeRoom gs addr room1).heap[addr]? = some room1 ∧
      mapGet room1.PlanesPlaced s.currentPlayerID = some msg.PlanesPlaced ∧
      mapGet room1.ReadyPlayers s.currentPlayerID = some false ∧
      room1.ID = room.ID ∧
      room1.Players = room.Players ∧
      room1.PlayerGrids = room.PlayerGrids ∧
      room1.PlaneHeads = room.PlaneHeads ∧
      room1.HeadHits = room.HeadHits ∧
      (∀ k, k ≠ s.currentPlayerID →
        mapGet room1.PlanesPlaced k = mapGet room.PlanesPlaced k ∧
        mapGet room1.ReadyPlayers k = mapGet room.ReadyPlayers k) :=
  ⟨removePlane room s.currentPlayerID msg, _,
    handleMessage_remove_plane gs s msg addr room hType hCur hRoom,
    storeRoom_heap_self _ _ _ _ hRoom, mapGet_mapSet_self _ _ _, mapGet_mapSet_self _ _ _,
    rfl, rfl, rfl, rfl, rfl,
    fun _ hk => ⟨mapGet_mapSet_ne _ _ _ _ hk, mapGet_mapSet_ne _ _ _ _ hk⟩⟩

theorem remove_plane_changes_count_and_ready_witness :
    ∃ room1 outs,
      handleMessage battleServer sessionOne { Type_ := "remove_plane", PlanesPlaced := 2 } =
        some (storeRoom battleServer 0 room1, sessionOne, outs) ∧
      (storeRoom battleServer 0 room1).heap[0]? = some room1 ∧
      mapGet room1.PlanesPlaced "1" = some 2 ∧
      mapGet room1.ReadyPlayers "1" = some false ∧
      room1.ID = battleRoom.ID ∧
      room1.Players = battleRoom.Players ∧
      room1.PlayerGrids = battleRoom.PlayerGrids ∧
      room1.PlaneHeads = battleRoom.PlaneHeads ∧
      room1.HeadHits = battleRoom.HeadHits ∧
      (∀ k, k ≠ "1" →
        mapGet room1.PlanesPlaced k = mapGet battleRoom.PlanesPlaced k ∧
        mapGet room1.ReadyPlayers k = mapGet battleRoom.ReadyPlayers k) :=
  remove_plane_changes_count_and_ready battleServer sessionOne
    { Type_ := "remove_plane", PlanesPlaced := 2 } 0 battleRoom rfl rfl rfl

/-- C16 as stated fails: in the battle example both slots hold the count 3;
slot "1" sends `remove_plane` with the count 2; slot "1" is sent
`planesPlaced = 2`, but slot "2" is sent its own count, 3, not the requester's
new count. -/
theorem remove_plane_broadcast_counterexample :
    handleMessage battleServer sessionOne { Type_ := "remove_plane", PlanesPlaced := 2 } =
      some ({ battleServer with heap := [{ battleRoom with
                PlanesPlaced := [("1", 2), ("2", 3)]
                ReadyPlayers := [("1", false), ("2", true)] }] },
        sessionOne,
        [(1, { Type_ := "placement_update", PlayerID := "1", PlanesPlaced := 2,
               PlacementPhase := true }),
         (2, { Type_ := "placement_update", PlayerID := "2", PlanesPlaced := 3,
               PlacementPhase := true })]) := by
  decide

/-- C16, amended: `remove_plane` writes one `placement_update` per populated
slot, to that slot's connection, carrying that slot's id and that slot's own
stored planes-placed count: for the requester's slot this is the new,
client-supplied count, for any other slot it is that slot's unchanged count. -/
theorem remove_plane_broadcast (gs : GameServer) (s : Session) (msg : Message)
    (addr : Nat) (room : Room) (hType : msg.Type_ = "remove_plane")
    (hCur : s.currentRoom = some addr) (hRoom : gs.heap[addr]? = some room) :
    ∃ room1 outs,
      handleMessage gs s msg = some (storeRoom gs addr room1, s, outs) ∧
      room1.Players = room.Players ∧
      outs = room.Players.map (fun e =>
        (e.2, { Type_ := "placement_update", PlayerID := e.1,
                PlanesPlaced := if e.1 = s.currentPlayerID then msg.PlanesPlaced
                  else mapIndex 0 room.PlanesPlaced e.1,
                PlacementPhase := true })) ∧
      outs.length = mapLen room.Players ∧
      (∀ c, mapGet room.Players s.currentPlayerID = some c →
        (c, { Type_ := "placement_update", PlayerID := s.currentPlayerID,
              PlanesPlaced := msg.PlanesPlaced, PlacementPhase := true }) ∈ outs) ∧
      (∀ k c, k ≠ s.currentPlayerID → mapGet room.Players k = some c →
        (c, { Type_ := "placement_update", PlayerID := k,
              PlanesPlaced := mapIndex 0 room.PlanesPlaced k, PlacementPhase := true }) ∈ outs) := by
  have hcount : ∀ k, mapIndex 0 (removePlane room s.currentPlayerID msg).PlanesPlaced k =
      if k = s.currentPlayerID then msg.PlanesPlaced else mapIndex 0 room.PlanesPlaced k := by
    intro k
    by_cases hk : k = s.currentPlayerID
    · subst hk
      simp [removePlane, mapIndex, mapGet_mapSet_self]
    · simp only [removePlane, mapIndex, mapGet_mapSet_ne _ _ _ _ hk, hk, if_false]
  have houts : removePlaneOutputs (removePlane room s.currentPlayerID msg) =
      room.Players.map (fun e =>
        (e.2, { Type_ := "placement_update", PlayerID := e.1,
                PlanesPlaced := if e.1 = s.currentPlayerID then msg.PlanesPlaced
                  else mapIndex 0 room.PlanesPlaced e.1,
                PlacementPhase := true })) := by
    unfold removePlaneOutputs
    simp only [hcount]
    rfl
  refine ⟨removePlane room s.currentPlayerID msg, _,
    handleMessage_remove_plane gs s msg addr room hType hCur hRoom, rfl, houts, ?_, ?_, ?_⟩
  · rw [houts]
    simp [mapLen]
  · intro c hc
    rw [houts]
    refine List.mem_map.mpr ⟨(s.currentPlayerID, c), mapGet_mem _ _ _ hc, ?_⟩
    simp
  · intro k c hk hc
    rw [houts]
    refine List.mem_map.mpr ⟨(k, c), mapGet_mem _ _ _ hc, ?_⟩
    simp [hk]

theorem remove_plane_broadcast_witness :
    ∃ room1 outs,
      handleMessage battleServer sessionOne { Type_ := "remove_plane", PlanesPlaced := 2 } =
        some (storeRoom battleServer 0 room1, sessionOne, outs) ∧
      room1.Players = battleRoom.Players ∧
      outs = battleRoom.Players.map (fun e =>
        (e.2, { Type_ := "placement_update", PlayerID := e.1,
                PlanesPlaced := if e.1 = "1" then 2 else mapIndex 0 battleRoom.PlanesPlaced e.1,
                PlacementPhase := true })) ∧
      outs.length = mapLen battleRoom.Players ∧
      (∀ c, mapGet battleRoom.Players "1" = some c →
        (c, { Type_ := "placement_update", PlayerID := "1",
              PlanesPlaced := 2, PlacementPhase := true }) ∈ outs) ∧
      (∀ k c, k ≠ "1" → mapGet battleRoom.Players k = some c →
        (c, { Type_ := "placement_update", PlayerID := k,
              PlanesPlaced := mapIndex 0 battleRoom.PlanesPlaced k,
              PlacementPhase := true }) ∈ outs) :=
  remove_plane_broadcast battleServer sessionOne { Type_ := "remove_plane", PlanesPlaced := 2 }
    0 battleRoom rfl rfl rfl

/-! ## Messages that are dropped -/

/-- C17: a connection with no resolved room that sends a message of any type
but `create_room` and `join_room` gets no message back and changes neither the
server nor its own local variables; and a message whose type is none of the six
inbound types is dropped in the same way on any connection, whatever its
resolved room and slot: no message, no error, no change. -/
theorem unhandled_messages_are_dropped (gs : GameServer) (s : Session) (msg : Message) :
    (s.currentRoom = none → msg.Type_ ≠ "create_room" → msg.Type_ ≠ "join_room" →
      handleMessage gs s msg = some (gs, s, [])) ∧
    (msg.Type_ ≠ "create_room" → msg.Type_ ≠ "join_room" → msg.Type_ ≠ "place_plane" →
      msg.Type_ ≠ "remove_plane" → msg.Type_ ≠ "player_ready" → msg.Type_ ≠ "attack" →
      handleMessage gs s msg = some (gs, s, [])) := by
  constructor
  · intro hCur h1 h2
    unfold handleMessage
    rw [if_neg h1, if_neg h2]
    simp only [onCurrentRoom, hCur]
    split
    · rfl
    · split
      · rfl
      · split
        · rfl
        · split <;> rfl
  · intro h1 h2 h3 h4 h5 h6
    unfold handleMessage
    rw [if_neg h1, if_neg h2, if_neg h3, if_neg h4, if_neg h5, if_neg h6]

theorem unhandled_messages_are_dropped_witness :
    handleMessage battleServer { conn := 9 } { Type_ := "attack", Position := 10 } =
      some (battleServer, { conn := 9 }, []) ∧
    handleMessage battleServer sessionOne { Type_ := "surrender" } =
      some (battleServer, sessionOne, []) :=
  ⟨(unhandled_messages_are_dropped battleServer { conn := 9 }
      { Type_ := "attack", Position := 10 }).1 rfl (by decide) (by decide),
   (unhandled_messages_are_dropped battleServer sessionOne { Type_ := "surrender" }).2
      (by decide) (by decide) (by decide) (by decide) (by decide) (by decide)⟩

/-! ## Well-formed rooms: lemmas on maps -/

theorem mapKeys_mapSet {α : Type} (m : GoMap α) (k : String) (v : α) :
    mapKeys (mapSet m k v) = if k ∈ mapKeys m then mapKeys m else mapKeys m ++ [k] := by
  induction m with
  | nil => simp [mapSet, mapKeys]
  | cons e rest ih =>
    obtain ⟨k1, v1⟩ := e
    by_cases h : k1 = k
    · subst h
      simp [mapSet, mapKeys]
    · have h2 : ¬ k = k1 := fun h3 => h h3.symm
      simp only [mapKeys] at ih
      simp only [mapSet, h, if_false, mapKeys, List.map_cons, ih, List.mem_cons, h2, false_or]
      split <;> simp

theorem mapKeys_mapDelete {α : Type} (m : GoMap α) (k : String) :
    mapKeys (mapDelete m k) = (mapKeys m).filter (fun x => decide (x ≠ k)) := by
  induction m with
  | nil => rfl
  | cons e rest ih =>
    obtain ⟨k1, v1⟩ := e
    simp only [mapKeys] at ih
    by_cases h : k1 = k
    · simp [mapDelete, mapKeys, h, ih]
    · simp [mapDelete, mapKeys, h, ih]

theorem mem_mapSet {α : Type} (m : GoMap α) (k : String) (v : α) (e : String × α)
    (h : e ∈ mapSet m k v) : e = (k, v) ∨ e ∈ m := by
  induction m with
  | nil =>
    simp only [mapSet, List.mem_singleton] at h
    exact Or.inl h
  | cons e1 rest ih =>
    obtain ⟨k1, v1⟩ := e1
    by_cases h1 : k1 = k
    · simp only [mapSet, h1, if_true, List.mem_cons] at h
      rcases h with h | h
      · exact Or.inl h
      · exact Or.inr (List.mem_cons_of_mem _ h)
    · simp only [mapSet, h1, if_false, List.mem_cons] at h
      rcases h with h | h
      · exact Or.inr (h ▸ List.mem_cons_self _ _)
      · rcases ih h with h2 | h2
        · exact Or.inl h2
        · exact Or.inr (List.mem_cons_of_mem _ h2)

theorem mem_mapDelete {α : Type} (m : GoMap α) (k : String) (e : String × α)
    (h : e ∈ mapDelete m k) : e ∈ m := by
  induction m with
  | nil => exact h
  | cons e1 rest ih =>
    obtain ⟨k1, v1⟩ := e1
    by_cases h1 : k1 = k
    · simp only [mapDelete, h1, if_true] at h
      exact List.mem_cons_of_mem _ (ih h)
    · simp only [mapDelete, h1, if_false, List.mem_cons] at h
      rcases h with h | h
      · exact h ▸ List.mem_cons_self _ _
      · exact List.mem_cons_of_mem _ (ih h)

theorem keysOK_nil {α : Type} : KeysOK ([] : GoMap α) :=
  ⟨List.nodup_nil, fun _ h => absurd h (List.not_mem_nil _)⟩

theorem keysOK_mapSet {α : Type} (m : GoMap α) (k : String) (v : α) (h : KeysOK m)
    (hk : k = "1" ∨ k = "2") : KeysOK (mapSet m k v) := by
  unfold KeysOK
  rw [mapKeys_mapSet]
  by_cases hmem : k ∈ mapKeys m
  · rw [if_pos hmem]
    exact h
  · rw [if_neg hmem]
    constructor
    · rw [List.nodup_append]
      refine ⟨h.1, List.nodup_singleton k, ?_⟩
      intro a ha hb
      rw [List.mem_singleton] at hb
      exact hmem (hb ▸ ha)
    · intro x hx
      rcases List.mem_append.mp hx with hx | hx
      · exact h.2 x hx
      · rw [List.mem_singleton] at hx
        rw [hx]
        exact hk

theorem keysOK_mapDelete {α : Type} (m : GoMap α) (k : String) (h : KeysOK m) :
    KeysOK (mapDelete m k) := by
  unfold KeysOK
  rw [mapKeys_mapDelete]
  exact ⟨h.1.filter _, fun x hx => h.2 x (List.mem_filter.mp hx).1⟩

/-- A map whose keys are slot ids, none twice, has at most 2 entries. -/
theorem mapLen_le_two {α : Type} (m : GoMap α) (h : KeysOK m) : mapLen m ≤ 2 := by
  have hsub : mapKeys m ⊆ ["1", "2"] := by
    intro k hk
    rcases h.2 k hk with h1 | h1 <;> simp [h1]
  have := (h.1.subperm hsub).length_le
  simpa [mapKeys, mapLen] using this

theorem mapGet_mem_keys {α : Type} (m : GoMap α) (k : String) (v : α)
    (h : mapGet m k = some v) : k ∈ mapKeys m :=
  List.mem_map.mpr ⟨(k, v), mapGet_mem m k v h, rfl⟩

/-! ## Well-formed rooms: every handler keeps them -/

theorem roomOK_emptyRoom (roomID : String) : RoomOK (emptyRoom roomID) :=
  ⟨keysOK_nil, keysOK_nil, keysOK_nil, keysOK_nil, keysOK_nil, keysOK_nil,
    fun _ h => absurd h (List.not_mem_nil _)⟩

theorem roomOK_populateSlot (room : Room) (pid : String) (conn : Conn) (h : RoomOK room)
    (hk : pid = "1" ∨ pid = "2") : RoomOK (populateSlot room pid conn) := by
  refine ⟨keysOK_mapSet _ _ _ h.players hk, keysOK_mapSet _ _ _ h.planesPlaced hk,
    keysOK_mapSet _ _ _ h.playerGrids hk, h.planeHeads, h.headHits,
    keysOK_mapSet _ _ _ h.readyPlayers hk, ?_⟩
  intro e he
  rcases mem_mapSet _ _ _ e he with h1 | h1
  · rw [h1]
    simp [freshGrid]
  · exact h.gridLength e h1

theorem updateGridWritten_length (ps : List Int) :
    ∀ grid : List Bool, (updateGridWritten grid ps).length = grid.length := by
  induction ps with
  | nil => intro grid; rfl
  | cons pos rest ih =>
    intro grid
    simp only [updateGridWritten]
    split
    · split
      · rw [ih]
        simp
      · rfl
    · exact ih grid

/-- When the grid loop does not panic, what it has written is its result. -/
theorem updateGrid_written (ps : List Int) :
    ∀ grid grid1 : List Bool, updateGrid grid ps = some grid1 →
      updateGridWritten grid ps = grid1 := by
  induction ps with
  | nil =>
    intro grid grid1 h
    simp only [updateGrid, Option.some.injEq] at h
    exact h
  | cons pos rest ih =>
    intro grid grid1 h
    simp only [updateGrid] at h
    simp only [updateGridWritten]
    split at h
    · rename_i hin
      rw [if_pos hin]
      split at h
      · rename_i hlt
        rw [if_pos hlt]
        exact ih _ _ h
      · cases h
    · rename_i hin
      rw [if_neg hin]
      exact ih _ _ h

/-- When `place_plane` does not panic, the room it has written is its result. -/
theorem placePlane_written (room room1 : Room) (pid : String) (msg : Message)
    (h : placePlane room pid msg = some room1) : placePlaneWritten room pid msg = room1 := by
  cases hp : msg.Positions with
  | nil =>
    simp only [placePlane, hp, Option.some.injEq] at h
    simp only [placePlaneWritten, hp]
    exact h
  | cons head tl =>
    cases hg : mapGet room.PlayerGrids pid with
    | none =>
      simp only [placePlane, hp, mapIndex, hg, Option.getD_none] at h
      simp only [placePlaneWritten, hp, mapIndex, hg]
      cases hu : updateGrid [] (head :: tl) with
      | none => simp [hu] at h
      | some g1 =>
        simp only [hu, Option.some.injEq] at h
        exact h
    | some grid =>
      simp only [placePlane, hp, mapIndex, hg, Option.getD_some] at h
      simp only [placePlaneWritten, hp, mapIndex, hg]
      cases hu : updateGrid grid (head :: tl) with
      | none => simp [hu] at h
      | some g1 =>
        simp only [hu, Option.some.injEq] at h
        rw [updateGrid_written _ _ _ hu]
        exact h

theorem roomOK_placePlaneWritten (room : Room) (pid : String) (msg : Message)
    (h : RoomOK room) (hk : pid = "1" ∨ pid = "2") :
    RoomOK (placePlaneWritten room pid msg) := by
  unfold placePlaneWritten
  split
  · exact ⟨h.players, keysOK_mapSet _ _ _ h.planesPlaced hk, h.playerGrids, h.planeHeads,
      h.headHits, h.readyPlayers, h.gridLength⟩
  · simp only
    split
    · exact ⟨h.players, keysOK_mapSet _ _ _ h.planesPlaced hk, h.playerGrids,
        keysOK_mapSet _ _ _ h.planeHeads hk, h.headHits, h.readyPlayers, h.gridLength⟩
    · rename_i grid hg
      refine ⟨h.players, keysOK_mapSet _ _ _ h.planesPlaced hk,
        keysOK_mapSet _ _ _ h.playerGrids hk, keysOK_mapSet _ _ _ h.planeHeads hk,
        h.headHits, h.readyPlayers, ?_⟩
      intro e he
      rcases mem_mapSet _ _ _ e he with h1 | h1
      · rw [h1]
        simp only
        rw [updateGridWritten_length]
        exact h.gridLength (pid, grid) (mapGet_mem _ _ _ hg)
      · exact h.gridLength e h1

theorem roomOK_removePlane (room : Room) (pid : String) (msg : Message)
    (h : RoomOK room) (hk : pid = "1" ∨ pid = "2") : RoomOK (removePlane room pid msg) :=
  ⟨h.players, keysOK_mapSet _ _ _ h.planesPlaced hk, h.playerGrids, h.planeHeads,
    h.headHits, keysOK_mapSet _ _ _ h.readyPlayers hk, h.gridLength⟩

theorem roomOK_playerReady (room : Room) (pid : String)
    (h : RoomOK room) (hk : pid = "1" ∨ pid = "2") : RoomOK (playerReady room pid) :=
  ⟨h.players, h.planesPlaced, h.playerGrids, h.planeHeads,
    h.headHits, keysOK_mapSet _ _ _ h.readyPlayers hk, h.gridLength⟩

theorem roomOK_resolveAttack (room : Room) (pid : String) (pos : Int)
    (h : RoomOK room) (hk : pid = "1" ∨ pid = "2") : RoomOK (resolveAttack room pid pos).1 := by
  rcases resolveAttack_frame room pid pos with h1 | h1 <;> rw [h1]
  · exact h
  · exact ⟨h.players, h.planesPlaced, h.playerGrids, h.planeHeads,
      keysOK_mapSet _ _ _ h.headHits hk, h.readyPlayers, h.gridLength⟩

theorem roomOK_removeSlot (room : Room) (pid : String) (h : RoomOK room) :
    RoomOK (removeSlot room pid) :=
  ⟨keysOK_mapDelete _ _ h.players, keysOK_mapDelete _ _ h.planesPlaced,
    keysOK_mapDelete _ _ h.playerGrids, h.planeHeads, h.headHits,
    keysOK_mapDelete _ _ h.readyPlayers,
    fun e he => h.gridLength e (mem_mapDelete _ _ e he)⟩

theorem heapOK_storeRoom (gs : GameServer) (addr : Nat) (room1 : Room)
    (hHeap : ∀ r ∈ gs.heap, RoomOK r) (h1 : RoomOK room1) :
    ∀ r ∈ (storeRoom gs addr room1).heap, RoomOK r := by
  intro r hr
  rcases List.mem_or_eq_of_mem_set hr with h | h
  · exact hHeap r h
  · rw [h]
    exact h1

theorem handleMessage_create_room (gs : GameServer) (s : Session) (msg : Message)
    (hType : msg.Type_ = "create_room") :
    handleMessage gs s msg =
      some (storeRoom (createRoom gs).2 gs.heap.length
              (populateSlot (emptyRoom (createRoom gs).1) "1" s.conn),
            { s with currentRoom := some gs.heap.length, currentPlayerID := "1" },
            [(s.conn, { Type_ := "room_created", RoomID := (createRoom gs).1, PlayerID := "1",
                        PlacementPhase := true, PlanesPlaced := 0 })]) := by
  have hget : mapGet (createRoom gs).2.rooms (createRoom gs).1 = some gs.heap.length := by
    simp [createRoom, mapGet_mapSet_self]
  have hheap : (createRoom gs).2.heap[gs.heap.length]? =
      some (emptyRoom (createRoom gs).1) := by
    simp [createRoom]
  simp only [handleMessage, hType, if_true, handleCreateRoom, hget, hheap]

theorem onCurrentRoom_ok (gs gs1 : GameServer) (s s1 : Session) (outs : List Out)
    (f : Room → Option (Room × List Out))
    (h : onCurrentRoom gs s f = some (gs1, s1, outs))
    (hHeap : ∀ r ∈ gs.heap, RoomOK r) (hS : SessionOK s)
    (hf : (s.currentPlayerID = "1" ∨ s.currentPlayerID = "2") →
      ∀ room room1 o, f room = some (room1, o) → RoomOK room → RoomOK room1) :
    (∀ r ∈ gs1.heap, RoomOK r) ∧ s1 = s := by
  unfold onCurrentRoom at h
  split at h
  · simp only [Option.some.injEq, Prod.mk.injEq] at h
    obtain ⟨rfl, rfl, -⟩ := h
    exact ⟨hHeap, rfl⟩
  · rename_i addr hCur
    split at h
    · cases h
    · rename_i room hRoom
      split at h
      · cases h
      · rename_i room1 o hfr
        simp only [Option.some.injEq, Prod.mk.injEq] at h
        obtain ⟨rfl, rfl, -⟩ := h
        have hpid := hS (by rw [hCur]; exact Option.some_ne_none addr)
        exact ⟨heapOK_storeRoom gs addr room1 hHeap
          (hf hpid room room1 o hfr (hHeap room (List.getElem?_mem hRoom))), rfl⟩

/-- Every case of the message switch keeps the rooms and the connection well
formed. -/
theorem handleMessage_ok (gs gs1 : GameServer) (s s1 : Session) (msg : Message)
    (outs : List Out) (h : handleMessage gs s msg = some (gs1, s1, outs))
    (hHeap : ∀ r ∈ gs.heap, RoomOK r) (hS : SessionOK s) :
    (∀ r ∈ gs1.heap, RoomOK r) ∧ SessionOK s1 := by
  have key : ∀ f : Room → Option (Room × List Out),
      onCurrentRoom gs s f = some (gs1, s1, outs) →
      ((s.currentPlayerID = "1" ∨ s.currentPlayerID = "2") →
        ∀ room room1 o, f room = some (room1, o) → RoomOK room → RoomOK room1) →
      (∀ r ∈ gs1.heap, RoomOK r) ∧ SessionOK s1 := by
    intro f hf hok
    obtain ⟨hh, hs⟩ := onCurrentRoom_ok gs gs1 s s1 outs f hf hHeap hS hok
    rw [hs]
    exact ⟨hh, hS⟩
  by_cases h1 : msg.Type_ = "create_room"
  · rw [handleMessage_create_room gs s msg h1] at h
    simp only [Option.some.injEq, Prod.mk.injEq] at h
    obtain ⟨rfl, rfl, -⟩ := h
    refine ⟨heapOK_storeRoom _ _ _ ?_
      (roomOK_populateSlot _ _ _ (roomOK_emptyRoom _) (Or.inl rfl)), fun _ => Or.inl rfl⟩
    intro r hr
    simp only [createRoom, List.mem_append, List.mem_singleton] at hr
    rcases hr with hr | hr
    · exact hHeap r hr
    · rw [hr]
      exact roomOK_emptyRoom _
  by_cases h2 : msg.Type_ = "join_room"
  · unfold handleMessage at h
    rw [if_neg h1, if_pos h2] at h
    unfold handleJoinRoom at h
    split at h
    · simp only [Option.some.injEq, Prod.mk.injEq] at h
      obtain ⟨rfl, rfl, -⟩ := h
      exact ⟨hHeap, hS⟩
    · split at h
      · cases h
      · rename_i room hRoom
        split at h
        · simp only [Option.some.injEq, Prod.mk.injEq] at h
          obtain ⟨rfl, rfl, -⟩ := h
          exact ⟨hHeap, hS⟩
        · simp only [Option.some.injEq, Prod.mk.injEq] at h
          obtain ⟨rfl, rfl, -⟩ := h
          exact ⟨heapOK_storeRoom _ _ _ hHeap
            (roomOK_populateSlot _ _ _ (hHeap room (List.getElem?_mem hRoom)) (Or.inr rfl)),
            fun _ => Or.inr rfl⟩
  by_cases h3 : msg.Type_ = "place_plane"
  · unfold handleMessage at h
    rw [if_neg h1, if_neg h2, if_pos h3] at h
    refine key _ h ?_
    intro hpid room room1 o hf hr
    cases hpl : placePlane room s.currentPlayerID msg with
    | none => simp [hpl] at hf
    | some r =>
      simp only [hpl, Option.map_some', Option.some.injEq, Prod.mk.injEq] at hf
      rw [← hf.1, ← placePlane_written room r _ msg hpl]
      exact roomOK_placePlaneWritten room _ msg hr hpid
  by_cases h4 : msg.Type_ = "remove_plane"
  · unfold handleMessage at h
    rw [if_neg h1, if_neg h2, if_neg h3, if_pos h4] at h
    refine key _ h ?_
    intro hpid room room1 o hf hr
    simp only [Option.some.injEq, Prod.mk.injEq] at hf
    rw [← hf.1]
    exact roomOK_removePlane room _ msg hr hpid
  by_cases h5 : msg.Type_ = "player_ready"
  · unfold handleMessage at h
    rw [if_neg h1, if_neg h2, if_neg h3, if_neg h4, if_pos h5] at h
    refine key _ h ?_
    intro hpid room room1 o hf hr
    simp only [Option.some.injEq, Prod.mk.injEq] at hf
    rw [← hf.1]
    exact roomOK_playerReady room _ hr hpid
  by_cases h6 : msg.Type_ = "attack"
  · unfold handleMessage at h
    rw [if_neg h1, if_neg h2, if_neg h3, if_neg h4, if_neg h5, if_pos h6] at h
    refine key _ h ?_
    intro hpid room room1 o hf hr
    simp only [Option.some.injEq, Prod.mk.injEq] at hf
    rw [← hf.1]
    exact roomOK_resolveAttack room _ _ hr hpid
  · unfold handleMessage at h
    rw [if_neg h1, if_neg h2, if_neg h3, if_neg h4, if_neg h5, if_neg h6] at h
    simp only [Option.some.injEq, Prod.mk.injEq] at h
    obtain ⟨rfl, rfl, -⟩ := h
    exact ⟨hHeap, hS⟩

theorem serverAtPanic_ok (gs : GameServer) (s : Session) (msg : Message)
    (hHeap : ∀ r ∈ gs.heap, RoomOK r) (hS : SessionOK s) :
    ∀ r ∈ (serverAtPanic gs s msg).heap, RoomOK r := by
  unfold serverAtPanic
  split
  · exact hHeap
  · rename_i addr hCur
    split
    · exact hHeap
    · rename_i room hRoom
      split
      · exact heapOK_storeRoom _ _ _ hHeap
          (roomOK_placePlaneWritten room _ msg (hHeap room (List.getElem?_mem hRoom))
            (hS (by rw [hCur]; exact Option.some_ne_none addr)))
      · exact hHeap

theorem handleDisconnect_ok (gs gs1 : GameServer) (s : Session) (outs : List Out)
    (h : handleDisconnect gs s = some (gs1, outs)) (hHeap : ∀ r ∈ gs.heap, RoomOK r) :
    ∀ r ∈ gs1.heap, RoomOK r := by
  unfold handleDisconnect at h
  split at h
  · simp only [Option.some.injEq, Prod.mk.injEq] at h
    obtain ⟨rfl, -⟩ := h
    exact hHeap
  · split at h
    · simp only [Option.some.injEq, Prod.mk.injEq] at h
      obtain ⟨rfl, -⟩ := h
      exact hHeap
    · split at h
      · cases h
      · rename_i room hRoom
        simp only [Option.some.injEq, Prod.mk.injEq] at h
        obtain ⟨rfl, -⟩ := h
        exact heapOK_storeRoom _ _ _ hHeap
          (roomOK_removeSlot room _ (hHeap room (List.getElem?_mem hRoom)))

theorem sessionsOK_dropSession (sessions : List Session) (conn : Conn)
    (h : ∀ s ∈ sessions, SessionOK s) : ∀ s ∈ dropSession sessions conn, SessionOK s :=
  fun s hs => h s (List.mem_filter.mp hs).1

theorem sessionsOK_putSession (sessions : List Session) (s1 : Session)
    (h : ∀ s ∈ sessions, SessionOK s) (h1 : SessionOK s1) :
    ∀ s ∈ putSession sessions s1, SessionOK s := by
  intro s hs
  obtain ⟨s0, hs0, rfl⟩ := List.mem_map.mp hs
  split
  · exact h1
  · exact h s0 hs0

/-- Every event keeps the system well formed. -/
theorem step_ok (sys sys1 : System) (ev : Event) (h : step sys ev = some sys1)
    (hOK : SystemOK sys) : SystemOK sys1 := by
  obtain ⟨hHeap, hSess⟩ := hOK
  cases ev with
  | connect =>
    simp only [step, Option.some.injEq] at h
    subst h
    refine ⟨hHeap, ?_⟩
    intro s hs
    rcases List.mem_append.mp hs with hs | hs
    · exact hSess s hs
    · rw [List.mem_singleton] at hs
      rw [hs]
      intro hne
      exact absurd rfl hne
  | message conn msg =>
    simp only [step] at h
    split at h
    · cases h
    · rename_i s hfind
      have hs : SessionOK s := hSess s (List.mem_of_find?_eq_some hfind)
      split at h
      · split at h
        · rename_i gs1 s1 outs hm
          simp only [Option.some.injEq] at h
          subst h
          obtain ⟨hh, hs1⟩ := handleMessage_ok _ _ _ _ _ _ hm hHeap hs
          exact ⟨hh, sessionsOK_putSession _ _ hSess hs1⟩
        · simp only [Option.some.injEq] at h
          subst h
          exact ⟨serverAtPanic_ok _ _ _ hHeap hs, sessionsOK_dropSession _ _ hSess⟩
      · cases h
  | disconnect conn =>
    simp only [step] at h
    split at h
    · cases h
    · rename_i s hfind
      split at h
      · split at h
        · rename_i gs1 outs hd
          simp only [Option.some.injEq] at h
          subst h
          exact ⟨handleDisconnect_ok _ _ _ _ hd hHeap, sessionsOK_dropSession _ _ hSess⟩
        · simp only [Option.some.injEq] at h
          subst h
          exact ⟨hHeap, sessionsOK_dropSession _ _ hSess⟩
      · cases h

/-- Every run keeps the system well formed. -/
theorem run_ok (evs : List Event) : ∀ sys sys1 : System, run sys evs = some sys1 →
    SystemOK sys → SystemOK sys1 := by
  induction evs with
  | nil =>
    intro sys sys1 h hOK
    simp only [run, Option.some.injEq] at h
    rw [← h]
    exact hOK
  | cons ev rest ih =>
    intro sys sys1 h hOK
    simp only [run] at h
    split at h
    · cases h
    · rename_i sys2 hstep
      exact ih sys2 sys1 h (step_ok sys sys2 ev hstep hOK)

theorem initialSystem_ok : SystemOK initialSystem :=
  ⟨fun _ h => absurd h (List.not_mem_nil _), fun _ h => absurd h (List.not_mem_nil _)⟩

/-! ## Reachable states -/

/-- C18: in every state the server reaches from an empty registry by any
sequence of connections, messages (of the six types or any other) and
disconnects, every room holds at most 2 populated slots, every key of each of
the room's six maps is "1" or "2", and every grid of the room has length
exactly 100. -/
theorem reachable_rooms_well_formed (evs : List Event) (sys : System)
    (h : run initialSystem evs = some sys) :
    ∀ room ∈ sys.server.heap,
      mapLen room.Players ≤ 2 ∧
      (∀ k, (k ∈ mapKeys room.Players ∨ k ∈ mapKeys room.PlanesPlaced ∨
          k ∈ mapKeys room.PlayerGrids ∨ k ∈ mapKeys room.PlaneHeads ∨
          k ∈ mapKeys room.HeadHits ∨ k ∈ mapKeys room.ReadyPlayers) →
        k = "1" ∨ k = "2") ∧
      (∀ k grid, mapGet room.PlayerGrids k = some grid → grid.length = 100) ∧
      (∀ e ∈ room.PlayerGrids, e.2.length = 100) := by
  intro room hroom
  have hOK := (run_ok evs initialSystem sys h initialSystem_ok).1 room hroom
  refine ⟨mapLen_le_two _ hOK.players, ?_, ?_, hOK.gridLength⟩
  · rintro k (hk | hk | hk | hk | hk | hk)
    · exact hOK.players.2 k hk
    · exact hOK.planesPlaced.2 k hk
    · exact hOK.playerGrids.2 k hk
    · exact hOK.planeHeads.2 k hk
    · exact hOK.headHits.2 k hk
    · exact hOK.readyPlayers.2 k hk
  · intro k grid hg
    exact hOK.gridLength (k, grid) (mapGet_mem _ _ _ hg)

theorem reachable_rooms_well_formed_witness :
    mapLen battleRoom.Players ≤ 2 ∧
    (∀ k, (k ∈ mapKeys battleRoom.Players ∨ k ∈ mapKeys battleRoom.PlanesPlaced ∨
        k ∈ mapKeys battleRoom.PlayerGrids ∨ k ∈ mapKeys battleRoom.PlaneHeads ∨
        k ∈ mapKeys battleRoom.HeadHits ∨ k ∈ mapKeys battleRoom.ReadyPlayers) →
      k = "1" ∨ k = "2") ∧
    (∀ k grid, mapGet battleRoom.PlayerGrids k = some grid → grid.length = 100) ∧
    (∀ e ∈ battleRoom.PlayerGrids, e.2.length = 100) :=
  reachable_rooms_well_formed battleEvents battleSystem (by decide) battleRoom
    (List.mem_cons_self _ _)

/-- C19 fails on the code: after `takeoverEvents` connection 2 is live with
`room_1` resolved and slot "2", but the room holds no grid for slot "2"
(connection 3 took slot "2" over and its cleanup deleted the slot).  The
`place_plane` of connection 2 then writes `PlayerGrids["2"][12]` on a nil slice:
the handler panics after it has stored the count and the head, the connection
is gone without cleanup, and the lock of the room stays held. -/
theorem place_plane_panics_after_takeover :
    run initialSystem takeoverEvents =
      some { server := vacatedServer, sessions := [sessionTwo], nextConn := 4, held := [] } ∧
    mapGet (emptyRoom "room_1").PlayerGrids "2" = none ∧
    handleMessage vacatedServer sessionTwo
      { Type_ := "place_plane", PlanesPlaced := 1, Positions := [12, 13, 14] } = none ∧
    step { server := vacatedServer, sessions := [sessionTwo], nextConn := 4, held := [] }
        (Event.message 2
          { Type_ := "place_plane", PlanesPlaced := 1, Positions := [12, 13, 14] }) =
      some { server := { vacatedServer with heap := [{ emptyRoom "room_1" with
                           PlanesPlaced := [("2", 1)], PlaneHeads := [("2", [12])] }] },
             sessions := [], nextConn := 4, held := [0] } ∧
    step { server := { vacatedServer with heap := [{ emptyRoom "room_1" with
                         PlanesPlaced := [("2", 1)], PlaneHeads := [("2", [12])] }] },
           sessions := [{ conn := 4 }], nextConn := 5, held := [0] }
        (Event.message 4 { Type_ := "join_room", RoomID := "room_1" }) = none := by
  decide

/-- What `join_room` does keep: a successful join leaves every slot other than
"2" as it was, and when slot "2" was not populated the room gains exactly one
populated slot. -/
theorem join_room_keeps_other_slots (gs : GameServer) (s : Session) (msg : Message)
    (addr : Nat) (room : Room) (hType : msg.Type_ = "join_room")
    (hReg : mapGet gs.rooms msg.RoomID = some addr) (hRoom : gs.heap[addr]? = some room)
    (hLen : mapLen room.Players < 2) :
    ∃ room1 outs,
      handleMessage gs s msg =
        some (storeRoom gs addr room1,
          { s with currentRoom := some addr, currentPlayerID := "2" }, outs) ∧
      (∀ k, k ≠ "2" →
        mapGet room1.Players k = mapGet room.Players k ∧
        mapGet room1.PlanesPlaced k = mapGet room.PlanesPlaced k ∧
        mapGet room1.PlayerGrids k = mapGet room.PlayerGrids k ∧
        mapGet room1.ReadyPlayers k = mapGet room.ReadyPlayers k) ∧
      (mapGet room.Players "2" = none → mapLen room1.Players = mapLen room.Players + 1) ∧
      (mapGet room.Players "2" ≠ none → mapLen room1.Players = mapLen room.Players) := by
  have hLen2 : ¬ mapLen room.Players ≥ 2 := by omega
  refine ⟨populateSlot room "2" s.conn, joinBroadcast (populateSlot room "2" s.conn), ?_,
    fun k hk => ⟨mapGet_mapSet_ne _ _ _ _ hk, mapGet_mapSet_ne _ _ _ _ hk,
      mapGet_mapSet_ne _ _ _ _ hk, mapGet_mapSet_ne _ _ _ _ hk⟩, ?_, ?_⟩
  · simp [handleMessage, hType, handleJoinRoom, hReg, hRoom, hLen2]
  · intro hnone
    simp only [populateSlot]
    rw [mapSet_of_absent _ _ _ hnone]
    simp [mapLen]
  · intro hsome
    exact mapLen_mapSet_of_present _ _ _ hsome

/-- C20 fails on the code: after `creatorLeavesEvents` the room `room_1` has one
populated slot, slot "2", held by connection 2 with a plane on cells 12 to 14,
the count 1 and the ready flag set.  The `join_room` of connection 3 succeeds
and overwrites that slot: its connection is now 3, its grid is all `false`, its
count 0 and its ready flag `false`; the room has one populated slot before and
after, and connection 2 is still live with slot "2" resolved. -/
theorem join_room_overwrites_slot_two :
    run initialSystem creatorLeavesEvents =
      some { server := joinerOnlyServer, sessions := [sessionTwo], nextConn := 3, held := [] } ∧
    mapLen joinerOnlyRoom.Players = 1 ∧
    handleMessage joinerOnlyServer { conn := 3 } { Type_ := "join_room", RoomID := "room_1" } =
      some ({ joinerOnlyServer with heap := [{ joinerOnlyRoom with
                Players := [("2", 3)], PlanesPlaced := [("2", 0)],
                PlayerGrids := [("2", freshGrid)], ReadyPlayers := [("2", false)] }] },
            sessionThree,
            [(3, { Type_ := "game_start", PlayerID := "2", PlacementPhase := true })]) ∧
    run { server := joinerOnlyServer, sessions := [sessionTwo], nextConn := 3, held := [] }
        [Event.connect, Event.message 3 { Type_ := "join_room", RoomID := "room_1" }] =
      some { server := { joinerOnlyServer with heap := [{ joinerOnlyRoom with
                           Players := [("2", 3)], PlanesPlaced := [("2", 0)],
                           PlayerGrids := [("2", freshGrid)],
                           ReadyPlayers := [("2", false)] }] },
             sessions := [sessionTwo, sessionThree], nextConn := 4, held := [] } := by
  decide

end Avioane
